import Mathlib

/-!
# Verification of the reduced-graph builder (librustc_resolve/build_reduced_graph.rs)

A shallow embedding of the resolver's reduced-graph builder.  The builder
itself (`src/librustc_resolve/build_reduced_graph.rs`) is translated
definition by definition.  The data model it operates on (`Module`,
`NameBindings`, `ImportDirective`, ...) and a handful of helper routines live
in the resolver's library root, which is not part of the sources; those are
modelled from the specification (sections 3, 4.2, 4.3 and 7) and are marked
`Modelled from the spec:` in their doc comments.

Interior mutability (`Rc<RefCell<...>>`) is rendered as two arenas inside an
explicit state record: modules and binding cells are addressed by natural
number indices, and every `Rc<Module>` / `Rc<NameBindings>` of the source
becomes such an index.  The crate-store oracle is a record of pure functions;
`each_child_of_item`-style callback iterations become folds over the returned
lists.  The single runtime assertion of the file
(`populate_module_if_necessary`) is modelled by an `Option` result where
`none` is the aborted process.
-/

namespace Resolve

/-- Interned identifier.  Names are interned strings with value equality. -/
abbrev Name := String

/-- Source span, opaque to the builder; only carried into diagnostics. -/
abbrev Span := Nat

/-- The dummy span `DUMMY_SP` used for external definitions. -/
def DUMMY_SP : Span := 0

/-- Syntactic node id. -/
abbrev NodeId := Nat

/-- Crate number. -/
abbrev CrateNum := Nat

/-- Globally unique definition id: crate number plus intra-crate index. -/
structure DefId where
  krate : CrateNum
  index : Nat
deriving DecidableEq

/-- The sentinel index denoting a crate's root module. -/
def CRATE_DEF_INDEX : Nat := 0

/-- The local crate's number. -/
def LOCAL_CRATE : CrateNum := 0

/-- `ast_map.local_def_id`: the AST-to-def oracle for local items.  Modelled
from the spec: local defs are allocated by the AST-to-def map from the
syntactic node id; the builder never mints def-ids itself (section 4.1). -/
def local_def_id (id : NodeId) : DefId := ⟨LOCAL_CRATE, id⟩

/-- `Def`: what a binding refers to (`rustc::middle::def`). -/
inductive Def where
  | DefMod (did : DefId)
  | DefForeignMod (did : DefId)
  | DefStruct (did : DefId)
  | DefTy (did : DefId) (is_enum : Bool)
  | DefTrait (did : DefId)
  | DefAssociatedTy (trait_did : DefId) (did : DefId)
  | DefVariant (enum_did : DefId) (variant_did : DefId) (is_struct : Bool)
  | DefFn (did : DefId) (is_ctor : Bool)
  | DefStatic (did : DefId) (mutable : Bool)
  | DefConst (did : DefId)
  | DefAssociatedConst (did : DefId)
  | DefMethod (did : DefId)
  | DefLocal (did : DefId)
  | DefPrimTy
  | DefTyParam (did : DefId)
  | DefUse (did : DefId)
  | DefUpvar (did : DefId)
  | DefLabel (id : NodeId)
  | DefSelfTy
deriving DecidableEq

/-- `Def::def_id()`.  The payload-free variants abort in the source; they are
given an arbitrary value here and are never reached by the builder except
through the fatal arm of `handle_external_def`. -/
def Def.def_id : Def → DefId
  | .DefMod did => did
  | .DefForeignMod did => did
  | .DefStruct did => did
  | .DefTy did _ => did
  | .DefTrait did => did
  | .DefAssociatedTy _ did => did
  | .DefVariant _ did _ => did
  | .DefFn did _ => did
  | .DefStatic did _ => did
  | .DefConst did => did
  | .DefAssociatedConst did => did
  | .DefMethod did => did
  | .DefLocal did => did
  | .DefTyParam did => did
  | .DefUse did => did
  | .DefUpvar did => did
  | .DefPrimTy => ⟨0, 0⟩
  | .DefLabel _ => ⟨0, 0⟩
  | .DefSelfTy => ⟨0, 0⟩

/-- `DefModifiers`: the `PUBLIC` and `IMPORTABLE` flag bits. -/
structure DefModifiers where
  isPublic : Bool
  isImportable : Bool
deriving DecidableEq

/-- The modifiers computed for ordinary items: optional `PUBLIC`, always
`IMPORTABLE`. -/
def DefModifiers.forItem (is_public : Bool) : DefModifiers := ⟨is_public, true⟩

/-- `DefModifiers::PUBLIC` alone (trait items are not importable). -/
def DefModifiers.publicOnly : DefModifiers := ⟨true, false⟩

/-- `DefModifiers::PUBLIC | DefModifiers::IMPORTABLE` (variants). -/
def DefModifiers.publicImportable : DefModifiers := ⟨true, true⟩

/-- `ModuleKind`. -/
inductive ModuleKind where
  | NormalModuleKind
  | TypeModuleKind
  | EnumModuleKind
  | TraitModuleKind
  | AnonymousModuleKind
deriving DecidableEq

/-- `ParentLink`: a weak back reference, rendered as a module index. -/
inductive ParentLink where
  | NoParentLink
  | ModuleParentLink (parent : Nat) (name : Name)
  | BlockParentLink (parent : Nat) (block_id : NodeId)
deriving DecidableEq

/-- The two namespaces. -/
inductive Namespace where
  | TypeNS
  | ValueNS
deriving DecidableEq

/-- `NamespaceError`, the duplicate categories reported by `add_child`. -/
inductive NamespaceError where
  | NoError
  | ModuleError
  | TypeError
  | ValueError
deriving DecidableEq

/-- `namespace_error_to_string`. -/
def namespace_error_to_string : NamespaceError → String
  | .NoError => ""
  | .ModuleError => "type or module"
  | .TypeError => "type or module"
  | .ValueError => "value"

/-- `DuplicateCheckingMode`. -/
inductive DuplicateCheckingMode where
  | ForbidDuplicateModules
  | ForbidDuplicateTypesAndModules
  | ForbidDuplicateValues
  | ForbidDuplicateTypesAndValues
  | OverwriteDuplicates
deriving DecidableEq

/-- Item visibility. -/
inductive Visibility where
  | Public
  | Inherited
deriving DecidableEq

/-- `Shadowable`: `Always` only for the prelude import. -/
inductive Shadowable where
  | Always
  | Never
deriving DecidableEq

/-- `ImportDirectiveSubclass`. -/
inductive ImportDirectiveSubclass where
  | SingleImport (target : Name) (source : Name)
  | GlobImport
deriving DecidableEq

/-- `ImportDirective`.  Modelled from the spec (section 3): module path,
subclass, span, node id, publicness and shadowability; `ImportDirective::new`
is the evident constructor. -/
structure ImportDirective where
  module_path : List Name
  subclass : ImportDirectiveSubclass
  span : Span
  id : NodeId
  is_public : Bool
  shadowable : Shadowable
deriving DecidableEq

/-- `ImportResolution`.  Modelled from the spec (section 3): bookkeeping per
target name. -/
structure ImportResolution where
  outstanding_references : Nat
  type_id : NodeId
  value_id : NodeId
  is_public : Bool
deriving DecidableEq

/-- `ImportResolution::new(id, is_public)`: fresh bookkeeping with no
outstanding references yet. -/
def ImportResolution.new (id : NodeId) (is_public : Bool) : ImportResolution :=
  ⟨0, id, id, is_public⟩

/-- The type-namespace slot of a binding cell (`TypeNsDef`).  Modelled from
the spec (section 3): a type slot stores def, modifiers and span, and may
additionally host an owned child module. -/
structure TypeNsDef where
  modifiers : DefModifiers
  module_def : Option Nat
  defn : Option Def
  span : Option Span
deriving DecidableEq

/-- The value-namespace slot of a binding cell (`ValueNsDef`). -/
structure ValueNsDef where
  modifiers : DefModifiers
  defn : Def
  span : Option Span
deriving DecidableEq

/-- `NameBindings`: one cell per (module, name) with two optional slots. -/
structure NameBindings where
  type_def : Option TypeNsDef
  value_def : Option ValueNsDef
deriving DecidableEq

/-- `NameBindings::new()`: both slots empty. -/
def NameBindings.new : NameBindings := ⟨none, none⟩

/-- `Module`: a node of the reduced graph.  Modelled from the spec
(section 3); the reference-counted maps become functions from keys to
optional arena indices. -/
structure Module where
  parent_link : ParentLink
  def_id : Option DefId
  kind : ModuleKind
  is_public : Bool
  is_external : Bool
  populated : Bool
  children : Name → Option Nat
  anonymous_children : NodeId → Option Nat
  external_module_children : Name → Option Nat
  imports : List ImportDirective
  import_resolutions : Name → Option ImportResolution
  glob_count : Nat
  pub_count : Nat
  pub_glob_count : Nat

/-- Modelled from the spec: `Module::new(parent_link, def_id?, kind,
is_external, is_public)` constructs an empty module (section 4.2).  The
`Module` constructor lives in the resolver's library root, outside src/.
Section 3 describes `populated` as marking whether an (external) module's
children have been materialized and describes external modules as populated
lazily, so a module starts populated exactly when it is not external. -/
def Module.new (pl : ParentLink) (def_id : Option DefId) (kind : ModuleKind)
    (external : Bool) (is_public : Bool) : Module where
  parent_link := pl
  def_id := def_id
  kind := kind
  is_public := is_public
  is_external := external
  populated := !external
  children := fun _ => none
  anonymous_children := fun _ => none
  external_module_children := fun _ => none
  imports := []
  import_resolutions := fun _ => none
  glob_count := 0
  pub_count := 0
  pub_glob_count := 0

/-- `ResolutionError` (the arms used by this file).  The last constructor's
source name ends in a word this development cannot use as a suffix, hence the
abbreviation `Pfx`. -/
inductive ResolutionError where
  | DuplicateDefinition (what : String) (name : Name)
  | SelfImportsOnlyAllowedWithin
  | SelfImportCanOnlyAppearOnceInTheList
  | SelfImportOnlyInImportListWithNonEmptyPfx
deriving DecidableEq

/-- One diagnostic sent to the session sink. -/
inductive Diag where
  | resolve_error (sp : Span) (err : ResolutionError)
  | span_warn (sp : Span) (msg : String)
  | span_note (sp : Span) (msg : String)
  | span_err (sp : Span) (msg : String)
deriving DecidableEq

/-- `DefLike`, the shape of a crate-store child. -/
inductive DefLike where
  | DlDef (d : Def)
  | DlImpl
  | DlField
deriving DecidableEq

/-- The crate-store oracle (`session.cstore` plus the `csearch` helpers).
Modelled from the spec (section 6): an oracle over previously compiled
crates; the callback-iteration operations return snapshot lists. -/
structure CStore where
  find_extern_mod_stmt_cnum : NodeId → Option CrateNum
  each_child_of_item : DefId → List (DefLike × Name × Visibility)
  each_top_level_item_of_crate : CrateNum → List (DefLike × Name × Visibility)
  get_tuple_struct_definition_if_ctor : DefId → Option DefId
  get_trait_item_def_ids : DefId → List DefId
  get_trait_name : DefId → Name
  get_struct_field_names : DefId → List Name

/-- The mutable context: the module and binding-cell arenas plus the
resolver's side tables and the diagnostic sink. -/
structure RState where
  modules : Nat → Module
  nmodules : Nat
  bindings : Nat → NameBindings
  nbindings : Nat
  external_exports : List DefId
  trait_item_map : List ((Name × DefId) × DefId)
  structs : List (DefId × List Name)
  unresolved_imports : Nat
  diags : List Diag
  aborted : Bool

/-- Point update of a function out of `Nat`. -/
def updFn {β : Type} (f : Nat → β) (i : Nat) (b : β) : Nat → β :=
  fun j => if j = i then b else f j

/-- Point update of a function out of `Name`. -/
def updName {β : Type} (f : Name → β) (k : Name) (b : β) : Name → β :=
  fun j => if j = k then b else f j

/-- Replace the module at index `i` by `g` of it. -/
def modifyModuleAt (s : RState) (i : Nat) (g : Module → Module) : RState :=
  { s with modules := updFn s.modules i (g (s.modules i)) }

/-- Replace the binding cell at index `i` by `g` of it. -/
def modifyBindingAt (s : RState) (i : Nat) (g : NameBindings → NameBindings) : RState :=
  { s with bindings := updFn s.bindings i (g (s.bindings i)) }

/-- Allocate a fresh module, returning its index. -/
def allocModule (s : RState) (m : Module) : RState × Nat :=
  ({ s with modules := updFn s.modules s.nmodules m, nmodules := s.nmodules + 1 },
   s.nmodules)

/-- Allocate a fresh (empty) binding cell, returning its index. -/
def allocBinding (s : RState) : RState × Nat :=
  ({ s with bindings := updFn s.bindings s.nbindings NameBindings.new,
            nbindings := s.nbindings + 1 },
   s.nbindings)

/-- `external_exports.insert`: set insertion. -/
def insertExport (l : List DefId) (d : DefId) : List DefId :=
  if d ∈ l then l else d :: l

/-- Send one diagnostic to the session sink (newest first). -/
def pushDiag (s : RState) (d : Diag) : RState :=
  { s with diags := d :: s.diags }

/-- `self.unresolved_imports += 1`. -/
def bumpUnresolved (s : RState) : RState :=
  { s with unresolved_imports := s.unresolved_imports + 1 }

/-- `self.external_exports.insert(d)`. -/
def insertExternalExport (s : RState) (d : DefId) : RState :=
  { s with external_exports := insertExport s.external_exports d }

/-- `self.structs.insert(d, fields)` (newest entry wins on lookup). -/
def insertStruct (s : RState) (d : DefId) (fields : List Name) : RState :=
  { s with structs := (d, fields) :: s.structs }

/-- `self.trait_item_map.insert(k, v)` (newest entry wins on lookup). -/
def insertTraitItem (s : RState) (k : Name × DefId) (v : DefId) : RState :=
  { s with trait_item_map := (k, v) :: s.trait_item_map }

/-- The fatal internal error: the aborted process. -/
def setAborted (s : RState) : RState :=
  { s with aborted := true }

/-- Association-list lookup (first hit wins, like a map whose `insert` conses
the newest entry in front). -/
def alookup {α β : Type} [DecidableEq α] : List (α × β) → α → Option β
  | [], _ => none
  | (k, v) :: rest, x => if x = k then some v else alookup rest x

/-- `NameBindings::get_module_if_available()`.  Modelled from the spec
(section 4.3). -/
def get_module_if_available (b : NameBindings) : Option Nat :=
  b.type_def.bind TypeNsDef.module_def

/-- `NameBindings::defined_in_namespace(ns)`.  Modelled from the spec
(section 4.3). -/
def defined_in_namespace (b : NameBindings) : Namespace → Bool
  | .TypeNS => b.type_def.isSome
  | .ValueNS => b.value_def.isSome

/-- `NameBindings::def_for_namespace(ns)`.  Modelled from the spec
(sections 3 and 4.3): the type namespace answers the stored def, or
synthesizes `Mod(def_id)` for a cell holding only a module backed by a
definition. -/
def def_for_namespace (s : RState) (b : NameBindings) : Namespace → Option Def
  | .TypeNS =>
    match b.type_def with
    | none => none
    | some td =>
      match td.defn with
      | some d => some d
      | none =>
        match td.module_def with
        | some mid => (s.modules mid).def_id.map Def.DefMod
        | none => none
  | .ValueNS => b.value_def.map ValueNsDef.defn

/-- `NameBindings::span_for_namespace(ns)`.  Modelled from the spec
(section 4.3). -/
def span_for_namespace (b : NameBindings) : Namespace → Option Span
  | .TypeNS => b.type_def.bind TypeNsDef.span
  | .ValueNS => b.value_def.bind ValueNsDef.span

/-- `NameBindings::define_value(def, span, modifiers)`.  Modelled from the
spec (section 4.3): sets the value slot. -/
def define_value (s : RState) (bid : Nat) (d : Def) (sp : Span)
    (mods : DefModifiers) : RState :=
  modifyBindingAt s bid (fun b => { b with value_def := some ⟨mods, d, some sp⟩ })

/-- `NameBindings::define_type(def, span, modifiers)`.  Modelled from the
spec (section 4.3): sets the type slot, keeping a module cell already hosted
there (types that are also namespaces keep their namespace). -/
def define_type (s : RState) (bid : Nat) (d : Def) (sp : Span)
    (mods : DefModifiers) : RState :=
  modifyBindingAt s bid (fun b =>
    { b with type_def := some { modifiers := mods,
                                module_def := b.type_def.bind TypeNsDef.module_def,
                                defn := some d,
                                span := some sp } })

/-- `NameBindings::define_module(parent_link, def_id?, kind, is_external,
is_public, span)`.  Modelled from the spec (section 4.3): sets the type slot
to hold a fresh `Module` cell of the given kind, keeping a def already stored
in the slot.  Returns the new module's index. -/
def define_module (s : RState) (bid : Nat) (pl : ParentLink) (def_id : Option DefId)
    (kind : ModuleKind) (external : Bool) (is_public : Bool) (sp : Span) :
    RState × Nat :=
  let p := allocModule s (Module.new pl def_id kind external is_public)
  (modifyBindingAt p.1 bid (fun b =>
    { b with type_def := some { modifiers := DefModifiers.forItem is_public,
                                module_def := some p.2,
                                defn := b.type_def.bind TypeNsDef.defn,
                                span := some sp } }),
   p.2)

/-- `NameBindings::set_module_kind(...)`.  Modelled from the spec
(section 4.3): install a module cell under the existing type binding without
replacing the `Def` already stored there; when a module cell already exists,
only its kind is updated. -/
def set_module_kind (s : RState) (bid : Nat) (pl : ParentLink) (def_id : Option DefId)
    (kind : ModuleKind) (external : Bool) (is_public : Bool) (_sp : Span) : RState :=
  match (s.bindings bid).type_def with
  | none =>
    let p := allocModule s (Module.new pl def_id kind external is_public)
    modifyBindingAt p.1 bid (fun b =>
      { b with type_def := some { modifiers := DefModifiers.forItem is_public,
                                  module_def := some p.2,
                                  defn := none,
                                  span := none } })
  | some td =>
    match td.module_def with
    | none =>
      let p := allocModule s (Module.new pl def_id kind external is_public)
      modifyBindingAt p.1 bid (fun b =>
        { b with type_def := some { td with module_def := some p.2 } })
    | some mid => modifyModuleAt s mid (fun m => { m with kind := kind })

/-- `Public`/`Inherited` as the boolean `vis == hir::Public`. -/
def Visibility.isPublicB : Visibility → Bool
  | .Public => true
  | .Inherited => false

/-- Modelled from the spec:
`check_for_conflicts_between_external_crates_and_items` (section 7) lives in
the resolver's library root; it reports a name clashing with an external
crate already imported into the module. -/
def check_for_conflicts_between_external_crates_and_items (s : RState)
    (parentMid : Nat) (name : Name) (sp : Span) : RState :=
  if ((s.modules parentMid).external_module_children name).isSome then
    pushDiag s (.span_err sp ("the name `" ++ name ++
      "` conflicts with an external crate that has been imported into this module"))
  else s

/-- Modelled from the spec: `check_for_conflicts_between_external_crates`
(section 4.5: on name collision with a sibling external crate, emit a
diagnostic); it lives in the resolver's library root. -/
def check_for_conflicts_between_external_crates (s : RState)
    (parentMid : Nat) (name : Name) (sp : Span) : RState :=
  if ((s.modules parentMid).external_module_children name).isSome then
    pushDiag s (.span_err sp ("an external crate named `" ++ name ++
      "` has already been imported into this module"))
  else s

/-- `add_child`: the single mutation point for a module's `children`.  Looks
up or creates the binding cell for `name` under the parent, enforcing the
duplicate checking mode and emitting a `DuplicateDefinition` diagnostic (plus
a note at the first definition) on conflict.  Always returns a cell: the
pre-existing one on conflict, so the caller makes progress. -/
def add_child (s : RState) (name : Name) (parentMid : Nat)
    (duplicate_checking_mode : DuplicateCheckingMode) (sp : Span) : RState × Nat :=
  let s := check_for_conflicts_between_external_crates_and_items s parentMid name sp
  match (s.modules parentMid).children name with
  | none =>
    let p := allocBinding s
    (modifyModuleAt p.1 parentMid
      (fun m => { m with children := updName m.children name (some p.2) }), p.2)
  | some bid =>
    let child := s.bindings bid
    let dt_ns : NamespaceError × Option Namespace :=
      match duplicate_checking_mode with
      | .ForbidDuplicateModules =>
        ((if (get_module_if_available child).isSome then .ModuleError else .NoError),
         some .TypeNS)
      | .ForbidDuplicateTypesAndModules =>
        ((if defined_in_namespace child .TypeNS then .TypeError else .NoError),
         some .TypeNS)
      | .ForbidDuplicateValues =>
        ((if defined_in_namespace child .ValueNS then .ValueError else .NoError),
         some .ValueNS)
      | .ForbidDuplicateTypesAndValues =>
        let t : NamespaceError × Option Namespace :=
          match def_for_namespace s child .TypeNS with
          | some (.DefMod _) => (.NoError, none)
          | none => (.NoError, none)
          | some _ => (.TypeError, some .TypeNS)
        if defined_in_namespace child .ValueNS then (.ValueError, some .ValueNS) else t
      | .OverwriteDuplicates => (.NoError, none)
    let duplicate_type := dt_ns.1
    if duplicate_type = .NoError then (s, bid)
    else
      let ns := dt_ns.2.getD .TypeNS
      let s := pushDiag s (.resolve_error sp
        (.DuplicateDefinition (namespace_error_to_string duplicate_type) name))
      let s := match span_for_namespace child ns with
        | some sp2 => pushDiag s (.span_note sp2
            ("first definition of " ++ namespace_error_to_string duplicate_type ++
              " `" ++ name ++ "` here"))
        | none => s
      (s, bid)

/-- `build_import_directive`: append a pending import to the module, bump the
global unresolved counter and the per-module counters, and maintain the
per-target `ImportResolution` bookkeeping for single imports. -/
def build_import_directive (s : RState) (mid : Nat) (module_path : List Name)
    (subclass : ImportDirectiveSubclass) (span : Span) (id : NodeId)
    (is_public : Bool) (shadowable : Shadowable) : RState :=
  let s := modifyModuleAt s mid (fun m =>
    { m with imports := m.imports ++
        [⟨module_path, subclass, span, id, is_public, shadowable⟩] })
  let s := bumpUnresolved s
  let s := if is_public then
      modifyModuleAt s mid (fun m => { m with pub_count := m.pub_count + 1 })
    else s
  match subclass with
  | .SingleImport target _ =>
    match (s.modules mid).import_resolutions target with
    | some resolution =>
      let bumped : ImportResolution :=
        { resolution with
            outstanding_references := resolution.outstanding_references + 1,
            type_id := id,
            value_id := id,
            is_public := is_public }
      modifyModuleAt s mid (fun m =>
        { m with import_resolutions := updName m.import_resolutions target (some bumped) })
    | none =>
      let fresh : ImportResolution :=
        { ImportResolution.new id is_public with outstanding_references := 1 }
      modifyModuleAt s mid (fun m =>
        { m with import_resolutions := updName m.import_resolutions target (some fresh) })
  | .GlobImport =>
    let s := modifyModuleAt s mid (fun m => { m with glob_count := m.glob_count + 1 })
    if is_public then
      modifyModuleAt s mid (fun m => { m with pub_glob_count := m.pub_glob_count + 1 })
    else s

/-- The module-merging step of `handle_external_def` for module-producing
defs (`Mod`, `ForeignMod`, `Struct`, `Ty`): if the cell already hosts a
module (re-entered via different paths), just update its def id; else define
a fresh external module of the computed kind (source lines 750 to 778). -/
def external_module_merge (s : RState) (bid : Nat) (did : DefId) (kind : ModuleKind)
    (is_public : Bool) (new_parent : Nat) (name : Name) : RState :=
  match (s.bindings bid).type_def with
  | some td =>
    match td.module_def with
    | some mid => modifyModuleAt s mid (fun m => { m with def_id := some did })
    | none => (define_module s bid (.ModuleParentLink new_parent name)
                 (some did) kind true is_public DUMMY_SP).1
  | none => (define_module s bid (.ModuleParentLink new_parent name)
               (some did) kind true is_public DUMMY_SP).1

/-- One trait item reported by the crate store for an external trait: record
it in the trait-item table and, when the trait is exported, in the external
exports (source lines 827 to 842). -/
def external_trait_item_step (cs : CStore) (def_id : DefId) (is_exported : Bool)
    (acc : RState) (trait_item_def : DefId) : RState :=
  let trait_item_name := cs.get_trait_name trait_item_def
  let acc := insertTraitItem acc (trait_item_name, def_id) trait_item_def
  if is_exported then insertExternalExport acc trait_item_def else acc

/-- `handle_external_def`: map one external `Def` onto the binding cell `bid`
(child `name` of module `new_parent`), maintaining exportedness, companion
modules, the struct table and the trait-item table.  The fatal arm for defs
that must not appear at module scope is recorded in the `aborted` flag. -/
def handle_external_def (cs : CStore) (s : RState) (d : Def) (vis : Visibility)
    (bid : Nat) (name : Name) (new_parent : Nat) : RState :=
  let is_public := vis.isPublicB
  let modifiers := DefModifiers.forItem is_public
  let is_exported := is_public &&
    (match (s.modules new_parent).def_id with
     | none => true
     | some did => s.external_exports.contains did)
  let s := if is_exported then insertExternalExport s d.def_id else s
  let kind := match d with
    | .DefTy _ true => ModuleKind.EnumModuleKind
    | .DefTy _ false => ModuleKind.TypeModuleKind
    | .DefStruct _ => ModuleKind.TypeModuleKind
    | _ => ModuleKind.NormalModuleKind
  let s := match d with
    | .DefMod did | .DefForeignMod did | .DefStruct did | .DefTy did _ =>
      external_module_merge s bid did kind is_public new_parent name
    | _ => s
  match d with
  | .DefMod _ => s
  | .DefForeignMod _ => s
  | .DefVariant _ variant_id is_struct =>
    let mods := DefModifiers.publicImportable
    if is_struct then
      let s := define_type s bid d DUMMY_SP mods
      insertStruct s variant_id []
    else define_value s bid d DUMMY_SP mods
  | .DefFn ctor_id true =>
    let d2 := match cs.get_tuple_struct_definition_if_ctor ctor_id with
      | some _ => Def.DefStruct ctor_id
      | none => d
    define_value s bid d2 DUMMY_SP modifiers
  | .DefFn _ _ | .DefStatic _ _ | .DefConst _ | .DefAssociatedConst _ | .DefMethod _ =>
    let mods := match (s.bindings bid).value_def with
      | some vd => { modifiers with isImportable := vd.modifiers.isImportable }
      | none => modifiers
    let mods := if (s.modules new_parent).kind ≠ ModuleKind.NormalModuleKind then
        { mods with isImportable := false }
      else mods
    define_value s bid d DUMMY_SP mods
  | .DefTrait def_id =>
    let s := (cs.get_trait_item_def_ids def_id).foldl
      (external_trait_item_step cs def_id is_exported) s
    let s := define_type s bid d DUMMY_SP modifiers
    set_module_kind s bid (.ModuleParentLink new_parent name) (some def_id)
      .TraitModuleKind true is_public DUMMY_SP
  | .DefTy _ _ | .DefAssociatedTy _ _ =>
    let mods := match (s.modules new_parent).kind with
      | .NormalModuleKind => modifiers
      | _ => { modifiers with isImportable := false }
    define_type s bid d DUMMY_SP mods
  | .DefStruct def_id =>
    let s := define_type s bid d DUMMY_SP modifiers
    let fields := cs.get_struct_field_names def_id
    let s := if fields.isEmpty then define_value s bid d DUMMY_SP modifiers else s
    insertStruct s def_id fields
  | _ => setAborted s

/-- The non-recursive part of `build_reduced_graph_for_external_crate_def`:
add the child cell under `Overwrite` mode and hand the def to
`handle_external_def` (source lines 917 to 929). -/
def handle_one_external (cs : CStore) (s : RState) (rootMid : Nat) (d : Def)
    (name : Name) (vis : Visibility) : RState :=
  let p := add_child s name rootMid .OverwriteDuplicates DUMMY_SP
  handle_external_def cs p.1 d vis p.2 name rootMid

/-- `build_reduced_graph_for_external_crate_def`: one crate-store child of an
external module.  Impls and fields are ignored; foreign modules have no names
and are recursed through eagerly.  The recursion through the oracle is
bounded by `fuel` (the oracle's child sets are finite, section 5). -/
def build_reduced_graph_for_external_crate_def (cs : CStore) :
    Nat → RState → Nat → DefLike → Name → Visibility → RState
  | _, s, _, .DlImpl, _, _ => s
  | _, s, _, .DlField, _, _ => s
  | 0, s, rootMid, .DlDef d, name, vis =>
    (match d with
     | .DefForeignMod _ => s
     | _ => handle_one_external cs s rootMid d name vis)
  | fuel + 1, s, rootMid, .DlDef d, name, vis =>
    (match d with
     | .DefForeignMod did =>
       (cs.each_child_of_item did).foldl
         (fun acc x =>
           build_reduced_graph_for_external_crate_def cs fuel acc rootMid x.1 x.2.1 x.2.2)
         s
     | _ => handle_one_external cs s rootMid d name vis)

/-- `populate_external_module`: materialize the children of an external
module from the crate store; returns without marking the module populated
when it has no def id. -/
def populate_external_module (cs : CStore) (fuel : Nat) (s : RState) (mid : Nat) :
    RState :=
  match (s.modules mid).def_id with
  | none => s
  | some def_id =>
    let s := (cs.each_child_of_item def_id).foldl
      (fun acc x =>
        build_reduced_graph_for_external_crate_def cs fuel acc mid x.1 x.2.1 x.2.2)
      s
    modifyModuleAt s mid (fun m => { m with populated := true })

/-- `populate_module_if_necessary`: populate when not yet populated, then
assert the module is populated.  The failed assertion (process abort) is the
`none` result. -/
def populate_module_if_necessary (cs : CStore) (fuel : Nat) (s : RState) (mid : Nat) :
    Option RState :=
  let s := if (s.modules mid).populated then s else populate_external_module cs fuel s mid
  if (s.modules mid).populated then some s else none

/-- `build_reduced_graph_for_external_crate`: eagerly build the reduced graph
rooted at the module of an `extern crate` item, from the crate's top-level
items.  The source unwraps the module's def id, which an extern-crate module
always carries. -/
def build_reduced_graph_for_external_crate (cs : CStore) (fuel : Nat) (s : RState)
    (rootMid : Nat) : RState :=
  match (s.modules rootMid).def_id with
  | none => s
  | some def_id =>
    (cs.each_top_level_item_of_crate def_id.krate).foldl
      (fun acc x =>
        build_reduced_graph_for_external_crate_def cs fuel acc rootMid x.1 x.2.1 x.2.2)
      s

/-- `PathListItem` node kinds: a named entry or the `self` entry. -/
inductive PathListItemKind where
  | PathListIdent (name : Name)
  | PathListMod
deriving DecidableEq

/-- One entry of a list import `use p::{...};`. -/
structure PathListItem where
  kind : PathListItemKind
  rename : Option Name
  id : NodeId
  span : Span
deriving DecidableEq

/-- `ViewPath`: the three shapes of a `use` item. -/
inductive ViewPath where
  | ViewPathSimple (binding : Name) (full_path : List Name) (span : Span)
  | ViewPathGlob (module_ident_path : List Name) (span : Span)
  | ViewPathList (module_ident_path : List Name) (items : List PathListItem) (span : Span)
deriving DecidableEq

/-- Foreign item kinds (`extern { ... }` members). -/
inductive ForeignItemKind where
  | ForeignItemFn
  | ForeignItemStatic (mutable : Bool)
deriving DecidableEq

/-- One foreign item. -/
structure ForeignItem where
  id : NodeId
  name : Name
  vis : Visibility
  span : Span
  node : ForeignItemKind
deriving DecidableEq

/-- One enum variant: its name, span, whether its data is a struct variant,
and the node id of its data (the variant's constructor node). -/
structure Variant where
  name : Name
  span : Span
  data_is_struct : Bool
  data_id : NodeId
deriving DecidableEq

/-- Trait item kinds. -/
inductive TraitItemKind where
  | ConstTraitItem
  | MethodTraitItem
  | TypeTraitItem
deriving DecidableEq

/-- One trait item. -/
structure TraitItem where
  id : NodeId
  name : Name
  span : Span
  node : TraitItemKind
deriving DecidableEq

/-- A struct field: named or positional. -/
inductive FieldKind where
  | NamedField (name : Name)
  | UnnamedField
deriving DecidableEq

/-- The variant-data of a struct item: `is_struct` distinguishes
struct-with-fields from tuple/unit structs; `ctor_id` is `struct_def.id()`,
the constructor's node id. -/
structure StructDefData where
  is_struct : Bool
  ctor_id : NodeId
  fields : List FieldKind
deriving DecidableEq

mutual
/-- One item of the crate tree. -/
inductive Item where
  | mk (id : NodeId) (name : Name) (attrs : List String) (vis : Visibility)
      (span : Span) (node : ItemKind)

/-- The item kinds handled by the builder.  Function bodies (and hence
blocks) are not represented: no claim exercises the anonymous-module path. -/
inductive ItemKind where
  | ItemUse (view_path : ViewPath)
  | ItemExternCrate
  | ItemMod (items : List Item)
  | ItemForeignMod (items : List ForeignItem)
  | ItemStatic (mutable : Bool)
  | ItemConst
  | ItemFn
  | ItemTy
  | ItemEnum (variants : List Variant)
  | ItemStruct (struct_def : StructDefData)
  | ItemDefaultImpl
  | ItemImpl
  | ItemTrait (items : List TraitItem)
end

/-- The item's node id. -/
def Item.id : Item → NodeId
  | .mk i _ _ _ _ _ => i

/-- The item's name. -/
def Item.name : Item → Name
  | .mk _ n _ _ _ _ => n

/-- The item's attributes (attribute names only). -/
def Item.attrs : Item → List String
  | .mk _ _ a _ _ _ => a

/-- The item's visibility. -/
def Item.vis : Item → Visibility
  | .mk _ _ _ v _ _ => v

/-- The item's span. -/
def Item.span : Item → Span
  | .mk _ _ _ _ sp _ => sp

/-- The item's kind. -/
def Item.node : Item → ItemKind
  | .mk _ _ _ _ _ k => k

/-- `build_reduced_graph_for_variant`: a variant lives in both namespaces of
the enum's companion module, always `PUBLIC | IMPORTABLE`. -/
def build_reduced_graph_for_variant (s : RState) (variant : Variant)
    (item_id : DefId) (parentMid : Nat) : RState :=
  let name := variant.name
  let sv : RState × Bool :=
    if variant.data_is_struct then (insertStruct s (local_def_id variant.data_id) [], true)
    else (s, false)
  let s := sv.1
  let is_exported := sv.2
  let p := add_child s name parentMid .ForbidDuplicateTypesAndValues variant.span
  let s := define_value p.1 p.2
    (.DefVariant item_id (local_def_id variant.data_id) is_exported)
    variant.span DefModifiers.publicImportable
  define_type s p.2
    (.DefVariant item_id (local_def_id variant.data_id) is_exported)
    variant.span DefModifiers.publicImportable

/-- `build_reduced_graph_for_foreign_item`: foreign items live in the value
namespace of the current parent. -/
def build_reduced_graph_for_foreign_item (s : RState) (foreign_item : ForeignItem)
    (parentMid : Nat) : RState :=
  let name := foreign_item.name
  let is_public := foreign_item.vis.isPublicB
  let modifiers := DefModifiers.forItem is_public
  let p := add_child s name parentMid .ForbidDuplicateValues foreign_item.span
  let d := match foreign_item.node with
    | .ForeignItemFn => Def.DefFn (local_def_id foreign_item.id) false
    | .ForeignItemStatic m => Def.DefStatic (local_def_id foreign_item.id) m
  define_value p.1 p.2 d foreign_item.span modifiers

/-- One entry of a `use p::{...}` list import: a named entry becomes a
single import under the shared prefix; the `self` entry resolves to the path
prefix, dropping the last segment and using it as both name and binding; a
`self` entry with an empty prefix is an error and records no directive
(source lines 344 to 373). -/
def build_list_import_entry (parentMid : Nat) (module_path : List Name)
    (is_public : Bool) (shadowable : Shadowable) (acc : RState)
    (si : PathListItem) : RState :=
  match si.kind with
  | .PathListIdent n =>
    build_import_directive acc parentMid module_path
      (.SingleImport (si.rename.getD n) n) si.span si.id is_public shadowable
  | .PathListMod =>
    match module_path.getLast? with
    | none =>
      pushDiag acc (.resolve_error si.span .SelfImportOnlyInImportListWithNonEmptyPfx)
    | some n =>
      build_import_directive acc parentMid module_path.dropLast
        (.SingleImport (si.rename.getD n) n) si.span si.id is_public shadowable

/-- One item of a trait body: bind it (not importable) inside the trait's
companion module and record it in the trait-item table (source lines 609 to
636). -/
def build_trait_item (module_parent : Nat) (trait_def_id : DefId) (item_id : NodeId)
    (acc : RState) (ti : TraitItem) : RState :=
  let r := add_child acc ti.name module_parent .ForbidDuplicateTypesAndValues ti.span
  let acc :=
    match ti.node with
    | .ConstTraitItem =>
      define_value r.1 r.2 (.DefAssociatedConst (local_def_id ti.id)) ti.span
        DefModifiers.publicOnly
    | .MethodTraitItem =>
      define_value r.1 r.2 (.DefMethod (local_def_id ti.id)) ti.span
        DefModifiers.publicOnly
    | .TypeTraitItem =>
      define_type r.1 r.2 (.DefAssociatedTy (local_def_id item_id) (local_def_id ti.id))
        ti.span DefModifiers.publicOnly
  insertTraitItem acc (ti.name, trait_def_id) (local_def_id ti.id)

/-- `build_reduced_graph_for_item`: lower one item into bindings, submodules
and import directives; returns the state and the module that becomes the
parent for the item's own contents. -/
def build_reduced_graph_for_item (cs : CStore) (fuel : Nat) (s : RState)
    (parentMid : Nat) (item : Item) : RState × Nat :=
  match item with
  | .mk id name attrs vis sp node =>
    let is_public := vis.isPublicB
    let modifiers := DefModifiers.forItem is_public
    match node with
    | .ItemUse view_path =>
      let module_path : List Name :=
        match view_path with
        | .ViewPathSimple _ full_path _ => full_path.dropLast
        | .ViewPathGlob module_ident_path _ => module_ident_path
        | .ViewPathList module_ident_path _ _ => module_ident_path
      let shadowable :=
        if attrs.contains ("prelude_import") then Shadowable.Always else Shadowable.Never
      let s :=
        match view_path with
        | .ViewPathSimple binding full_path vsp =>
          let source_name := (full_path.getLast?).getD ("")
          let s :=
            if source_name = ("mod") || source_name = ("self") then
              pushDiag s (.resolve_error vsp .SelfImportsOnlyAllowedWithin)
            else s
          build_import_directive s parentMid module_path
            (.SingleImport binding source_name) vsp id is_public shadowable
        | .ViewPathList _ source_items lsp =>
          let mod_spans := source_items.filterMap (fun si =>
            match si.kind with
            | .PathListMod => some si.span
            | _ => none)
          let s :=
            if 1 < mod_spans.length then
              let s := pushDiag s (.resolve_error (mod_spans.headD lsp)
                .SelfImportCanOnlyAppearOnceInTheList)
              (mod_spans.drop 1).foldl (fun acc osp =>
                pushDiag acc (.span_note osp ("another `self` import appears here"))) s
            else s
          source_items.foldl
            (build_list_import_entry parentMid module_path is_public shadowable) s
        | .ViewPathGlob _ gsp =>
          build_import_directive s parentMid module_path .GlobImport gsp id
            is_public shadowable
      (s, parentMid)
    | .ItemExternCrate =>
      let s :=
        match cs.find_extern_mod_stmt_cnum id with
        | none => s
        | some crate_id =>
          let def_id : DefId := ⟨crate_id, CRATE_DEF_INDEX⟩
          let s := insertExternalExport s def_id
          let p := allocModule s (Module.new (.ModuleParentLink parentMid name)
            (some def_id) .NormalModuleKind false true)
          let s := check_for_conflicts_between_external_crates p.1 parentMid name sp
          let s := modifyModuleAt s parentMid (fun m =>
            { m with external_module_children :=
                updName m.external_module_children name (some p.2) })
          build_reduced_graph_for_external_crate cs fuel s p.2
      (s, parentMid)
    | .ItemMod _ =>
      let s :=
        match (s.modules parentMid).children name with
        | some cbid =>
          let child := s.bindings cbid
          if defined_in_namespace child .TypeNS &&
              (get_module_if_available child).isNone then
            let s := pushDiag s (.span_warn sp ("duplicate definition of " ++
              namespace_error_to_string .TypeError ++ " `" ++ name ++
              "`. Defining a module and a struct with the same name will be disallowed soon."))
            match span_for_namespace child .TypeNS with
            | some sp2 => pushDiag s (.span_note sp2 ("first definition of " ++
                namespace_error_to_string .TypeError ++ " `" ++ name ++ "` here"))
            | none => s
          else s
        | none => s
      let p := add_child s name parentMid .ForbidDuplicateModules sp
      let q := define_module p.1 p.2 (.ModuleParentLink parentMid name)
        (some (local_def_id id)) .NormalModuleKind false is_public sp
      (q.1, q.2)
    | .ItemForeignMod _ => (s, parentMid)
    | .ItemStatic m =>
      let p := add_child s name parentMid .ForbidDuplicateValues sp
      (define_value p.1 p.2 (.DefStatic (local_def_id id) m) sp modifiers, parentMid)
    | .ItemConst =>
      let p := add_child s name parentMid .ForbidDuplicateValues sp
      (define_value p.1 p.2 (.DefConst (local_def_id id)) sp modifiers, parentMid)
    | .ItemFn =>
      let p := add_child s name parentMid .ForbidDuplicateValues sp
      (define_value p.1 p.2 (.DefFn (local_def_id id) false) sp modifiers, parentMid)
    | .ItemTy =>
      let p := add_child s name parentMid .ForbidDuplicateTypesAndModules sp
      let s := define_type p.1 p.2 (.DefTy (local_def_id id) false) sp modifiers
      let s := set_module_kind s p.2 (.ModuleParentLink parentMid name)
        (some (local_def_id id)) .TypeModuleKind false is_public sp
      (s, parentMid)
    | .ItemEnum variants =>
      let p := add_child s name parentMid .ForbidDuplicateTypesAndModules sp
      let s := define_type p.1 p.2 (.DefTy (local_def_id id) true) sp modifiers
      let s := set_module_kind s p.2 (.ModuleParentLink parentMid name)
        (some (local_def_id id)) .EnumModuleKind false is_public sp
      let module := (get_module_if_available (s.bindings p.2)).getD 0
      let s := variants.foldl (fun acc v =>
        build_reduced_graph_for_variant acc v (local_def_id id) module) s
      (s, parentMid)
    | .ItemStruct struct_def =>
      let sfc : RState × DuplicateCheckingMode × Option NodeId :=
        if struct_def.is_struct then (s, .ForbidDuplicateTypesAndModules, none)
        else
          let s :=
            match (s.modules parentMid).children name with
            | some cbid =>
              let child := s.bindings cbid
              match def_for_namespace s child .TypeNS with
              | some (.DefMod _) =>
                let s := pushDiag s (.span_warn sp ("duplicate definition of " ++
                  namespace_error_to_string .TypeError ++ " `" ++ name ++
                  "`. Defining a module and a struct with the same name will be disallowed soon."))
                (match span_for_namespace child .TypeNS with
                 | some sp2 => pushDiag s (.span_note sp2 ("first definition of " ++
                     namespace_error_to_string .TypeError ++ " `" ++ name ++ "` here"))
                 | none => s)
              | _ => s
            | none => s
          (s, .ForbidDuplicateTypesAndValues, some struct_def.ctor_id)
      let p := add_child sfc.1 name parentMid sfc.2.1 sp
      let s := define_type p.1 p.2 (.DefTy (local_def_id id) false) sp modifiers
      let s :=
        match sfc.2.2 with
        | some cid => define_value s p.2 (.DefStruct (local_def_id cid)) sp modifiers
        | none => s
      let named_fields := struct_def.fields.filterMap (fun f =>
        match f with
        | .NamedField n => some n
        | .UnnamedField => none)
      (insertStruct s (local_def_id id) named_fields, parentMid)
    | .ItemDefaultImpl => (s, parentMid)
    | .ItemImpl => (s, parentMid)
    | .ItemTrait titems =>
      let p := add_child s name parentMid .ForbidDuplicateTypesAndModules sp
      let q := define_module p.1 p.2 (.ModuleParentLink parentMid name)
        (some (local_def_id id)) .TraitModuleKind false is_public sp
      let module_parent := q.2
      let def_id := local_def_id id
      let s := titems.foldl (build_trait_item module_parent def_id id) q.1
      let s := define_type s p.2 (.DefTrait def_id) sp modifiers
      (s, parentMid)

mutual
/-- `BuildReducedGraphVisitor::visit_item`: build the item, then walk its
contents with the returned module as parent. -/
def visit_item (cs : CStore) (fuel : Nat) (s : RState) (parentMid : Nat)
    (item : Item) : RState :=
  let p := build_reduced_graph_for_item cs fuel s parentMid item
  match item with
  | .mk _ _ _ _ _ (.ItemMod items) => visit_items cs fuel p.1 p.2 items
  | .mk _ _ _ _ _ (.ItemForeignMod fitems) =>
    fitems.foldl (fun acc fi => build_reduced_graph_for_foreign_item acc fi p.2) p.1
  | _ => p.1

/-- Walk a list of sibling items under one parent. -/
def visit_items (cs : CStore) (fuel : Nat) (s : RState) (parentMid : Nat) :
    List Item → RState
  | [] => s
  | i :: rest => visit_items cs fuel (visit_item cs fuel s parentMid i) parentMid rest
end

/-- Modelled from the spec: the crate's root module cell `graph_root`
(section 6) — a public, non-external `Normal` module for the local crate
root. -/
def graph_root_module : Module :=
  Module.new .NoParentLink (some ⟨LOCAL_CRATE, CRATE_DEF_INDEX⟩) .NormalModuleKind
    false true

/-- The initial builder state: the root module alone, empty arenas and side
tables. -/
def initState : RState where
  modules := fun j =>
    if j = 0 then graph_root_module
    else Module.new .NoParentLink none .NormalModuleKind false false
  nmodules := 1
  bindings := fun _ => NameBindings.new
  nbindings := 0
  external_exports := []
  trait_item_map := []
  structs := []
  unresolved_imports := 0
  diags := []
  aborted := false

/-- `build_reduced_graph(resolver, krate)`: build from the local crate
root. -/
def build_reduced_graph (cs : CStore) (fuel : Nat) (krate : List Item) : RState :=
  visit_items cs fuel initState 0 krate


/-! ## Basic state lemmas -/

theorem updFn_apply {β : Type} (f : Nat → β) (i : Nat) (b : β) (j : Nat) :
    updFn f i b j = if j = i then b else f j := rfl

theorem updName_apply {β : Type} (f : Name → β) (k : Name) (b : β) (j : Name) :
    updName f k b j = if j = k then b else f j := rfl

theorem modifyModuleAt_modules (s : RState) (i : Nat) (g : Module → Module) (j : Nat) :
    (modifyModuleAt s i g).modules j = if j = i then g (s.modules i) else s.modules j := rfl

theorem modifyBindingAt_bindings (s : RState) (i : Nat) (g : NameBindings → NameBindings)
    (j : Nat) :
    (modifyBindingAt s i g).bindings j = if j = i then g (s.bindings i) else s.bindings j := rfl

theorem mem_insertExport {l : List DefId} {d e : DefId} (h : d ∈ l) :
    d ∈ insertExport l e := by
  unfold insertExport
  split
  · exact h
  · exact List.mem_cons_of_mem _ h

theorem self_mem_insertExport (l : List DefId) (d : DefId) : d ∈ insertExport l d := by
  unfold insertExport
  split
  · assumption
  · exact List.mem_cons_self _ _

/-- Preservation of a state predicate along a fold. -/
theorem foldl_pres {α : Type} {P : RState → Prop} {f : RState → α → RState}
    (h : ∀ s x, P s → P (f s x)) : ∀ (l : List α) (s : RState), P s → P (l.foldl f s) := by
  intro l
  induction l with
  | nil => intro s hs; exact hs
  | cons x xs ih => intro s hs; exact ih _ (h s x hs)

/-- A reflexive-transitive step relation holds along a fold when it holds for
every step. -/
theorem foldl_rel {α : Type} {R : RState → RState → Prop} (hrefl : ∀ s, R s s)
    (htrans : ∀ a b c, R a b → R b c → R a c) {f : RState → α → RState}
    (h : ∀ s x, R s (f s x)) : ∀ (l : List α) (s : RState), R s (l.foldl f s) := by
  intro l
  induction l with
  | nil => intro s; exact hrefl s
  | cons x xs ih => intro s; exact htrans _ _ _ (h s x) (ih _)

/-! ## The import-resolution counting invariant (spec section 8) -/

/-- The number of `Single` directives on an import list whose binding
(target) name is `x`. -/
def countSingles (l : List ImportDirective) (x : Name) : Nat :=
  (l.filter (fun dir =>
    match dir.subclass with
    | .SingleImport t _ => t == x
    | .GlobImport => false)).length

/-- The outstanding-reference count of an optional resolution (0 when
absent). -/
def outRefs (r : Option ImportResolution) : Nat :=
  match r with
  | some r => r.outstanding_references
  | none => 0

/-- Per module: every name's outstanding-reference count equals the number
of single directives targeting it. -/
def importInv (m : Module) : Prop :=
  ∀ x, outRefs (m.import_resolutions x) = countSingles m.imports x

/-- The counting invariant, over every module of the arena. -/
def AllImportInv (s : RState) : Prop := ∀ i, importInv (s.modules i)

theorem importInv_new (pl : ParentLink) (def_id : Option DefId) (kind : ModuleKind)
    (external is_public : Bool) :
    importInv (Module.new pl def_id kind external is_public) :=
  fun _ => rfl

theorem countSingles_append (l : List ImportDirective) (dir : ImportDirective) (x : Name) :
    countSingles (l ++ [dir]) x = countSingles l x +
      (match dir.subclass with
       | .SingleImport t _ => if t = x then 1 else 0
       | .GlobImport => 0) := by
  unfold countSingles
  rw [List.filter_append, List.length_append]
  congr 1
  split
  · next t src heq =>
    simp only [List.filter, heq]
    by_cases h : t = x
    · rw [show (t == x) = true from beq_iff_eq.mpr h]
      simp [h]
    · rw [show (t == x) = false from beq_eq_false_iff_ne.mpr h]
      simp [h]
  · next heq => simp [List.filter, heq]

/-! ## Monotonicity of the builder -/

/-- Builder steps only grow the arena, never un-populate an existing module,
never drop an external export, and preserve the import-resolution counting
invariant. -/
def Extends (s t : RState) : Prop :=
  s.nmodules ≤ t.nmodules ∧
  (∀ i, i < s.nmodules → (s.modules i).populated = true → (t.modules i).populated = true) ∧
  (∀ d, d ∈ s.external_exports → d ∈ t.external_exports) ∧
  (AllImportInv s → AllImportInv t)

theorem extends_refl (s : RState) : Extends s s :=
  ⟨le_refl _, fun _ _ h => h, fun _ h => h, fun h => h⟩

theorem extends_trans {a b c : RState} (h1 : Extends a b) (h2 : Extends b c) :
    Extends a c :=
  ⟨le_trans h1.1 h2.1,
   fun i hi hp => h2.2.1 i (lt_of_lt_of_le hi h1.1) (h1.2.1 i hi hp),
   fun d hd => h2.2.2.1 d (h1.2.2.1 d hd),
   fun h => h2.2.2.2 (h1.2.2.2 h)⟩

/-- A step that keeps `modules`, `nmodules` and `external_exports` extends. -/
theorem extends_of_eq {s t : RState} (hm : t.modules = s.modules)
    (hn : t.nmodules = s.nmodules) (he : t.external_exports = s.external_exports) :
    Extends s t := by
  refine ⟨le_of_eq hn.symm, ?_, ?_, ?_⟩
  · intro i _ hp; rw [hm]; exact hp
  · intro d hd; rw [he]; exact hd
  · intro ha i; rw [hm]; exact ha i

theorem extends_pushDiag (s : RState) (d : Diag) : Extends s (pushDiag s d) :=
  extends_of_eq rfl rfl rfl

theorem extends_bumpUnresolved (s : RState) : Extends s (bumpUnresolved s) :=
  extends_of_eq rfl rfl rfl

theorem extends_insertExternalExport (s : RState) (d : DefId) :
    Extends s (insertExternalExport s d) :=
  ⟨le_refl _, fun _ _ h => h, fun _ he => mem_insertExport he, fun h => h⟩

theorem extends_insertStruct (s : RState) (d : DefId) (fields : List Name) :
    Extends s (insertStruct s d fields) := extends_of_eq rfl rfl rfl

theorem extends_insertTraitItem (s : RState) (k : Name × DefId) (v : DefId) :
    Extends s (insertTraitItem s k v) := extends_of_eq rfl rfl rfl

theorem extends_setAborted (s : RState) : Extends s (setAborted s) :=
  extends_of_eq rfl rfl rfl

theorem extends_modifyModuleAt (s : RState) (i : Nat) (g : Module → Module)
    (hg : ∀ m, m.populated = true → (g m).populated = true)
    (hgi : ∀ m, (g m).imports = m.imports)
    (hgr : ∀ m, (g m).import_resolutions = m.import_resolutions) :
    Extends s (modifyModuleAt s i g) := by
  refine ⟨le_refl _, ?_, fun d hd => hd, ?_⟩
  · intro j _ hp
    rw [modifyModuleAt_modules]
    split
    · next hj => subst hj; exact hg _ hp
    · exact hp
  · intro ha j
    rw [modifyModuleAt_modules]
    split
    · intro x; rw [hgi, hgr]; exact ha i x
    · exact ha j

theorem extends_modifyBindingAt (s : RState) (i : Nat) (g : NameBindings → NameBindings) :
    Extends s (modifyBindingAt s i g) :=
  extends_of_eq rfl rfl rfl

theorem extends_allocModule (s : RState) (m : Module) (hm : importInv m) :
    Extends s (allocModule s m).1 := by
  refine ⟨Nat.le_succ _, ?_, fun d hd => hd, ?_⟩
  · intro i hi hp
    have h : (allocModule s m).1.modules i = updFn s.modules s.nmodules m i := rfl
    rw [h, updFn_apply, if_neg (Nat.ne_of_lt hi)]
    exact hp
  · intro ha i
    have h : (allocModule s m).1.modules i = updFn s.modules s.nmodules m i := rfl
    rw [h, updFn_apply]
    split
    · exact hm
    · exact ha i

theorem extends_allocBinding (s : RState) : Extends s (allocBinding s).1 :=
  extends_of_eq rfl rfl rfl

theorem extends_define_value (s : RState) (bid : Nat) (d : Def) (sp : Span)
    (mods : DefModifiers) : Extends s (define_value s bid d sp mods) :=
  extends_modifyBindingAt _ _ _

theorem extends_define_type (s : RState) (bid : Nat) (d : Def) (sp : Span)
    (mods : DefModifiers) : Extends s (define_type s bid d sp mods) :=
  extends_modifyBindingAt _ _ _

theorem extends_define_module (s : RState) (bid : Nat) (pl : ParentLink)
    (def_id : Option DefId) (kind : ModuleKind) (external is_public : Bool) (sp : Span) :
    Extends s (define_module s bid pl def_id kind external is_public sp).1 :=
  extends_trans (extends_allocModule s _ (importInv_new _ _ _ _ _))
    (extends_modifyBindingAt _ _ _)

theorem extends_set_module_kind (s : RState) (bid : Nat) (pl : ParentLink)
    (def_id : Option DefId) (kind : ModuleKind) (external is_public : Bool) (sp : Span) :
    Extends s (set_module_kind s bid pl def_id kind external is_public sp) := by
  unfold set_module_kind
  split
  · exact extends_trans (extends_allocModule s _ (importInv_new _ _ _ _ _))
      (extends_modifyBindingAt _ _ _)
  · split
    · exact extends_trans (extends_allocModule s _ (importInv_new _ _ _ _ _))
        (extends_modifyBindingAt _ _ _)
    · exact extends_modifyModuleAt _ _ _ (fun m h => h) (fun m => rfl) (fun m => rfl)

theorem extends_check_items (s : RState) (parentMid : Nat) (name : Name) (sp : Span) :
    Extends s (check_for_conflicts_between_external_crates_and_items s parentMid name sp) := by
  unfold check_for_conflicts_between_external_crates_and_items
  split
  · exact extends_pushDiag _ _
  · exact extends_refl _

theorem extends_check_crates (s : RState) (parentMid : Nat) (name : Name) (sp : Span) :
    Extends s (check_for_conflicts_between_external_crates s parentMid name sp) := by
  unfold check_for_conflicts_between_external_crates
  split
  · exact extends_pushDiag _ _
  · exact extends_refl _

set_option maxHeartbeats 1000000 in
theorem extends_add_child (s : RState) (name : Name) (parentMid : Nat)
    (mode : DuplicateCheckingMode) (sp : Span) :
    Extends s (add_child s name parentMid mode sp).1 := by
  simp only [add_child]
  refine extends_trans (extends_check_items s parentMid name sp) ?_
  generalize (check_for_conflicts_between_external_crates_and_items s parentMid name sp) = s1
  split
  · exact extends_trans (extends_allocBinding _)
      (extends_modifyModuleAt _ _ _ (fun m h => h) (fun m => rfl) (fun m => rfl))
  · cases mode <;> (repeat' split) <;> exact extends_of_eq rfl rfl rfl

theorem pubcnt_if_imports (t : RState) (c : Bool) (mid j : Nat) :
    (((if c = true then
        modifyModuleAt t mid (fun m => { m with pub_count := m.pub_count + 1 })
      else t).modules j).imports) = (t.modules j).imports := by
  split
  · rw [modifyModuleAt_modules]
    split
    · next h => subst h; rfl
    · rfl
  · rfl

theorem pubcnt_if_res (t : RState) (c : Bool) (mid j : Nat) :
    (((if c = true then
        modifyModuleAt t mid (fun m => { m with pub_count := m.pub_count + 1 })
      else t).modules j).import_resolutions) = (t.modules j).import_resolutions := by
  split
  · rw [modifyModuleAt_modules]
    split
    · next h => subst h; rfl
    · rfl
  · rfl

set_option maxHeartbeats 2000000 in
theorem inv_build_import_directive (s : RState) (mid : Nat) (mp : List Name)
    (subclass : ImportDirectiveSubclass) (span : Span) (id : NodeId)
    (is_public : Bool) (shadowable : Shadowable) (ha : AllImportInv s) :
    AllImportInv (build_import_directive s mid mp subclass span id is_public shadowable) := by
  simp only [build_import_directive]
  split
  · rename_i target source
    split
    · rename_i osc resolution heq
      simp only [modifyModuleAt_modules, bumpUnresolved, pubcnt_if_res,
        eq_self_iff_true, ite_true] at heq
      intro j x
      by_cases hj : j = mid
      · subst hj
        simp only [modifyModuleAt_modules, bumpUnresolved, pubcnt_if_res,
          pubcnt_if_imports, countSingles_append, updName_apply,
          eq_self_iff_true, ite_true]
        by_cases hx : x = target
        · simp only [hx, eq_self_iff_true, ite_true, if_true, outRefs]
          have h2 := ha j target
          rw [heq] at h2
          simp only [outRefs] at h2
          omega
        · rw [if_neg hx, if_neg (fun hh => hx hh.symm)]
          simp only [Nat.add_zero, outRefs]
          exact ha j x
      · simp only [modifyModuleAt_modules, bumpUnresolved, pubcnt_if_res,
          pubcnt_if_imports, hj, ite_false, if_false]
        exact ha j x
    · rename_i osc heq
      simp only [modifyModuleAt_modules, bumpUnresolved, pubcnt_if_res,
        eq_self_iff_true, ite_true] at heq
      intro j x
      by_cases hj : j = mid
      · subst hj
        simp only [modifyModuleAt_modules, bumpUnresolved, pubcnt_if_res,
          pubcnt_if_imports, countSingles_append, updName_apply,
          eq_self_iff_true, ite_true]
        by_cases hx : x = target
        · simp only [hx, eq_self_iff_true, ite_true, if_true, outRefs]
          have h2 := ha j target
          rw [heq] at h2
          simp only [outRefs] at h2
          omega
        · rw [if_neg hx, if_neg (fun hh => hx hh.symm)]
          simp only [Nat.add_zero, outRefs]
          exact ha j x
      · simp only [modifyModuleAt_modules, bumpUnresolved, pubcnt_if_res,
          pubcnt_if_imports, hj, ite_false, if_false]
        exact ha j x
  · intro j x
    by_cases hj : j = mid
    · subst hj
      simp only [modifyModuleAt_modules, bumpUnresolved, pubcnt_if_res,
        pubcnt_if_imports, countSingles_append, updName_apply,
        eq_self_iff_true, ite_true]
      split
      · simp only [modifyModuleAt_modules, bumpUnresolved, pubcnt_if_res,
          pubcnt_if_imports, eq_self_iff_true, ite_true]
        rw [countSingles_append]
        simp only [Nat.add_zero]
        exact ha j x
      · simp only [modifyModuleAt_modules, bumpUnresolved, pubcnt_if_res,
          pubcnt_if_imports, eq_self_iff_true, ite_true]
        rw [countSingles_append]
        simp only [Nat.add_zero]
        exact ha j x
    · simp only [modifyModuleAt_modules, bumpUnresolved, pubcnt_if_res,
        pubcnt_if_imports, hj, ite_false, if_false]
      split
      · simp only [modifyModuleAt_modules, bumpUnresolved, pubcnt_if_res,
          pubcnt_if_imports, hj, ite_false, if_false]
        exact ha j x
      · simp only [modifyModuleAt_modules, bumpUnresolved, pubcnt_if_res,
          pubcnt_if_imports, hj, ite_false, if_false]
        exact ha j x

set_option maxHeartbeats 1000000 in
theorem bid_nmodules (s : RState) (mid : Nat) (mp : List Name)
    (subclass : ImportDirectiveSubclass) (span : Span) (id : NodeId)
    (is_public : Bool) (shadowable : Shadowable) :
    (build_import_directive s mid mp subclass span id is_public shadowable).nmodules =
      s.nmodules := by
  simp only [build_import_directive]
  repeat' split
  all_goals rfl

set_option maxHeartbeats 1000000 in
theorem bid_exports (s : RState) (mid : Nat) (mp : List Name)
    (subclass : ImportDirectiveSubclass) (span : Span) (id : NodeId)
    (is_public : Bool) (shadowable : Shadowable) :
    (build_import_directive s mid mp subclass span id is_public shadowable).external_exports =
      s.external_exports := by
  simp only [build_import_directive]
  repeat' split
  all_goals rfl

set_option maxHeartbeats 1000000 in
theorem bid_populated (s : RState) (mid : Nat) (mp : List Name)
    (subclass : ImportDirectiveSubclass) (span : Span) (id : NodeId)
    (is_public : Bool) (shadowable : Shadowable) (j : Nat) :
    ((build_import_directive s mid mp subclass span id is_public shadowable).modules j).populated =
      ((s.modules j)).populated := by
  simp only [build_import_directive]
  repeat' split
  all_goals by_cases hj : j = mid
  all_goals simp [modifyModuleAt_modules, bumpUnresolved, hj]

theorem extends_build_import_directive (s : RState) (mid : Nat) (mp : List Name)
    (subclass : ImportDirectiveSubclass) (span : Span) (id : NodeId)
    (is_public : Bool) (shadowable : Shadowable) :
    Extends s (build_import_directive s mid mp subclass span id is_public shadowable) :=
  ⟨le_of_eq (bid_nmodules s mid mp subclass span id is_public shadowable).symm,
   fun j _ hp => by rw [bid_populated]; exact hp,
   fun d hd => by rw [bid_exports]; exact hd,
   fun ha => inv_build_import_directive s mid mp subclass span id is_public shadowable ha⟩

theorem extends_external_module_merge (s : RState) (bid : Nat) (did : DefId)
    (kind : ModuleKind) (is_public : Bool) (np : Nat) (name : Name) :
    Extends s (external_module_merge s bid did kind is_public np name) := by
  unfold external_module_merge
  split
  · split
    · exact extends_modifyModuleAt _ _ _ (fun m h => h) (fun m => rfl) (fun m => rfl)
    · exact extends_define_module _ _ _ _ _ _ _ _
  · exact extends_define_module _ _ _ _ _ _ _ _

theorem extends_export_if (s : RState) (c : Bool) (d : DefId) :
    Extends s (if c = true then insertExternalExport s d else s) := by
  split
  · exact extends_insertExternalExport _ _
  · exact extends_refl _

theorem extends_external_trait_item_step (cs : CStore) (def_id : DefId)
    (is_exported : Bool) (acc : RState) (tid : DefId) :
    Extends acc (external_trait_item_step cs def_id is_exported acc tid) := by
  unfold external_trait_item_step
  split
  · exact extends_trans (extends_insertTraitItem _ _ _) (extends_insertExternalExport _ _)
  · exact extends_insertTraitItem _ _ _

set_option maxHeartbeats 2000000 in
theorem extends_handle_external_def (cs : CStore) (s : RState) (d : Def)
    (vis : Visibility) (bid : Nat) (name : Name) (np : Nat) :
    Extends s (handle_external_def cs s d vis bid name np) := by
  cases d <;> simp only [handle_external_def] <;> (repeat' split) <;>
    (repeat
      first
        | exact extends_refl _
        | exact extends_export_if _ _ _
        | exact extends_insertExternalExport _ _
        | refine extends_trans ?_ (extends_external_module_merge _ _ _ _ _ _ _)
        | refine extends_trans ?_ (extends_define_type _ _ _ _ _)
        | refine extends_trans ?_ (extends_define_value _ _ _ _ _)
        | refine extends_trans ?_ (extends_insertStruct _ _ _)
        | refine extends_trans ?_ (extends_set_module_kind _ _ _ _ _ _ _ _)
        | refine extends_trans ?_
            (foldl_rel extends_refl (fun a b c h1 h2 => extends_trans h1 h2)
              (fun t x => extends_external_trait_item_step _ _ _ _ _) _ _)
        | refine extends_trans ?_ (extends_setAborted _))

theorem extends_handle_one_external (cs : CStore) (s : RState) (rootMid : Nat)
    (d : Def) (name : Name) (vis : Visibility) :
    Extends s (handle_one_external cs s rootMid d name vis) := by
  simp only [handle_one_external]
  exact extends_trans (extends_add_child _ _ _ _ _)
    (extends_handle_external_def _ _ _ _ _ _ _)

theorem extends_external_crate_def (cs : CStore) : ∀ (fuel : Nat) (s : RState)
    (rootMid : Nat) (dl : DefLike) (name : Name) (vis : Visibility),
    Extends s (build_reduced_graph_for_external_crate_def cs fuel s rootMid dl name vis) := by
  intro fuel
  induction fuel with
  | zero =>
    intro s rootMid dl name vis
    cases dl with
    | DlImpl => exact extends_refl _
    | DlField => exact extends_refl _
    | DlDef d =>
      simp only [build_reduced_graph_for_external_crate_def]
      split
      · exact extends_refl _
      · exact extends_handle_one_external _ _ _ _ _ _
  | succ n ih =>
    intro s rootMid dl name vis
    cases dl with
    | DlImpl => exact extends_refl _
    | DlField => exact extends_refl _
    | DlDef d =>
      simp only [build_reduced_graph_for_external_crate_def]
      split
      · exact foldl_rel extends_refl (fun a b c h1 h2 => extends_trans h1 h2)
          (fun t (x : DefLike × Name × Visibility) => ih t rootMid x.1 x.2.1 x.2.2) _ _
      · exact extends_handle_one_external _ _ _ _ _ _

theorem extends_populate_external_module (cs : CStore) (fuel : Nat) (s : RState)
    (mid : Nat) : Extends s (populate_external_module cs fuel s mid) := by
  unfold populate_external_module
  split
  · exact extends_refl _
  · refine extends_trans ?_ (extends_modifyModuleAt _ _ _ (fun m _ => rfl) (fun m => rfl) (fun m => rfl))
    exact foldl_rel extends_refl (fun a b c h1 h2 => extends_trans h1 h2)
      (fun t (x : DefLike × Name × Visibility) => extends_external_crate_def cs fuel t mid x.1 x.2.1 x.2.2) _ _

theorem extends_external_crate (cs : CStore) (fuel : Nat) (s : RState) (rootMid : Nat) :
    Extends s (build_reduced_graph_for_external_crate cs fuel s rootMid) := by
  unfold build_reduced_graph_for_external_crate
  split
  · exact extends_refl _
  · exact foldl_rel extends_refl (fun a b c h1 h2 => extends_trans h1 h2)
      (fun t (x : DefLike × Name × Visibility) => extends_external_crate_def cs fuel t rootMid x.1 x.2.1 x.2.2) _ _

theorem extends_variant (s : RState) (variant : Variant) (item_id : DefId)
    (parentMid : Nat) :
    Extends s (build_reduced_graph_for_variant s variant item_id parentMid) := by
  simp only [build_reduced_graph_for_variant]
  split <;>
    (refine extends_trans ?_ (extends_define_type _ _ _ _ _) ;
     refine extends_trans ?_ (extends_define_value _ _ _ _ _) ;
     refine extends_trans ?_ (extends_add_child _ _ _ _ _))
  · exact extends_insertStruct _ _ _
  · exact extends_refl _

theorem extends_foreign_item (s : RState) (fi : ForeignItem) (parentMid : Nat) :
    Extends s (build_reduced_graph_for_foreign_item s fi parentMid) := by
  simp only [build_reduced_graph_for_foreign_item]
  refine extends_trans ?_ (extends_define_value _ _ _ _ _)
  exact extends_add_child _ _ _ _ _

theorem extends_list_import_entry (parentMid : Nat) (module_path : List Name)
    (is_public : Bool) (shadowable : Shadowable) (acc : RState) (si : PathListItem) :
    Extends acc (build_list_import_entry parentMid module_path is_public shadowable acc si) := by
  unfold build_list_import_entry
  split
  · exact extends_build_import_directive _ _ _ _ _ _ _ _
  · split
    · exact extends_pushDiag _ _
    · exact extends_build_import_directive _ _ _ _ _ _ _ _

theorem extends_build_trait_item (module_parent : Nat) (trait_def_id : DefId)
    (item_id : NodeId) (acc : RState) (ti : TraitItem) :
    Extends acc (build_trait_item module_parent trait_def_id item_id acc ti) := by
  unfold build_trait_item
  refine extends_trans ?_ (extends_insertTraitItem _ _ _)
  split
  · refine extends_trans ?_ (extends_define_value _ _ _ _ _)
    exact extends_add_child _ _ _ _ _
  · refine extends_trans ?_ (extends_define_value _ _ _ _ _)
    exact extends_add_child _ _ _ _ _
  · refine extends_trans ?_ (extends_define_type _ _ _ _ _)
    exact extends_add_child _ _ _ _ _

set_option maxHeartbeats 4000000 in
theorem extends_build_reduced_graph_for_item (cs : CStore) (fuel : Nat) (s : RState)
    (parentMid : Nat) (item : Item) :
    Extends s (build_reduced_graph_for_item cs fuel s parentMid item).1 := by
  obtain ⟨id, name, attrs, vis, sp, node⟩ := item
  cases node <;> simp only [build_reduced_graph_for_item] <;> (repeat' split) <;>
    (repeat
      first
        | exact extends_refl _
        | exact extends_pushDiag _ _
        | exact extends_check_crates _ _ _ _
        | exact extends_insertExternalExport _ _
        | refine extends_trans ?_ (extends_build_import_directive _ _ _ _ _ _ _ _)
        | refine extends_trans ?_
            (foldl_rel extends_refl (fun a b c h1 h2 => extends_trans h1 h2)
              (fun t x => extends_pushDiag t _) _ _)
        | refine extends_trans ?_
            (foldl_rel extends_refl (fun a b c h1 h2 => extends_trans h1 h2)
              (fun t x => extends_list_import_entry _ _ _ _ t x) _ _)
        | refine extends_trans ?_ (extends_external_crate _ _ _ _)
        | refine extends_trans ?_ (extends_check_crates _ _ _ _)
        | refine extends_trans ?_ (extends_allocModule _ _ (importInv_new _ _ _ _ _))
        | refine extends_trans ?_
            (extends_modifyModuleAt _ _ _ (fun m h => h) (fun m => rfl) (fun m => rfl))
        | refine extends_trans ?_ (extends_pushDiag _ _)
        | refine extends_trans ?_ (extends_define_module _ _ _ _ _ _ _ _)
        | refine extends_trans ?_ (extends_add_child _ _ _ _ _)
        | refine extends_trans ?_ (extends_define_value _ _ _ _ _)
        | refine extends_trans ?_ (extends_define_type _ _ _ _ _)
        | refine extends_trans ?_ (extends_set_module_kind _ _ _ _ _ _ _ _)
        | refine extends_trans ?_
            (foldl_rel extends_refl (fun a b c h1 h2 => extends_trans h1 h2)
              (fun t x => extends_variant t x _ _) _ _)
        | refine extends_trans ?_ (extends_insertStruct _ _ _)
        | refine extends_trans ?_
            (foldl_rel extends_refl (fun a b c h1 h2 => extends_trans h1 h2)
              (fun t x => extends_build_trait_item _ _ _ t x) _ _)
        | exact extends_add_child _ _ _ _ _
        | exact extends_check_items _ _ _ _)

mutual
theorem extends_visit_item (cs : CStore) (fuel : Nat) (s : RState) (parentMid : Nat)
    (item : Item) : Extends s (visit_item cs fuel s parentMid item) := by
  obtain ⟨id, name, attrs, vis, sp, node⟩ := item
  cases node <;> simp only [visit_item] <;>
    first
      | exact extends_trans (extends_build_reduced_graph_for_item _ _ _ _ _)
          (extends_visit_items _ _ _ _ _)
      | exact extends_trans (extends_build_reduced_graph_for_item _ _ _ _ _)
          (foldl_rel extends_refl (fun a b c h1 h2 => extends_trans h1 h2)
            (fun t x => extends_foreign_item t x _) _ _)
      | exact extends_build_reduced_graph_for_item _ _ _ _ _
termination_by sizeOf item

theorem extends_visit_items (cs : CStore) (fuel : Nat) (s : RState) (parentMid : Nat)
    (items : List Item) : Extends s (visit_items cs fuel s parentMid items) := by
  match items with
  | [] =>
    rw [visit_items]
    exact extends_refl _
  | i :: rest =>
    rw [visit_items]
    exact extends_trans (extends_visit_item cs fuel s parentMid i)
      (extends_visit_items cs fuel _ parentMid rest)
termination_by sizeOf items
end

/-! ## Populate-if-necessary: success and failure -/

theorem populate_external_module_no_def_id (cs : CStore) (fuel : Nat) (s : RState)
    (mid : Nat) (h : (s.modules mid).def_id = none) :
    populate_external_module cs fuel s mid = s := by
  unfold populate_external_module
  rw [h]

theorem populate_external_module_populated (cs : CStore) (fuel : Nat) (s : RState)
    (mid : Nat) (did : DefId) (h : (s.modules mid).def_id = some did) :
    ((populate_external_module cs fuel s mid).modules mid).populated = true := by
  unfold populate_external_module
  rw [h]
  rw [modifyModuleAt_modules, if_pos rfl]

/-- C10: `populate_module_if_necessary` fails its assertion (aborting, here
`none`) exactly on unpopulated modules without a def id. -/
theorem populate_assert_dichotomy (cs : CStore) (fuel : Nat) (s : RState) (mid : Nat) :
    ((s.modules mid).populated = false → (s.modules mid).def_id = none →
      populate_module_if_necessary cs fuel s mid = none) ∧
    ((s.modules mid).populated = true ∨ (s.modules mid).def_id ≠ none →
      (populate_module_if_necessary cs fuel s mid).isSome = true) := by
  constructor
  · intro hp hd
    unfold populate_module_if_necessary
    rw [populate_external_module_no_def_id cs fuel s mid hd]
    simp [hp]
  · intro h
    unfold populate_module_if_necessary
    cases hp : (s.modules mid).populated with
    | true => simp [hp]
    | false =>
      cases hdid : (s.modules mid).def_id with
      | none =>
        rcases h with h | h
        · rw [hp] at h; exact absurd h (by simp)
        · exact absurd hdid h
      | some did =>
        simp only [hp, Bool.false_eq_true, if_false]
        rw [populate_external_module_populated cs fuel s mid did hdid]
        simp

/-- A crate store with no external information, for concrete runs. -/
def emptyStore : CStore where
  find_extern_mod_stmt_cnum := fun _ => none
  each_child_of_item := fun _ => []
  each_top_level_item_of_crate := fun _ => []
  get_tuple_struct_definition_if_ctor := fun _ => none
  get_trait_item_def_ids := fun _ => []
  get_trait_name := fun _ => ("")
  get_struct_field_names := fun _ => []

/-- A state whose module 1 is external-style but carries no def id: the
shape on which the population assertion must fire. -/
def orphanState : RState :=
  { initState with
      modules := updFn initState.modules 1
        (Module.new .NoParentLink none .NormalModuleKind true false),
      nmodules := 2 }

/-! ## Concrete scenarios -/

/-- `mod a {} fn a(){}` (spec scenario 2). -/
def modFnItems : List Item :=
  [Item.mk 1 ("a") [] .Inherited 11 (.ItemMod []),
   Item.mk 2 ("a") [] .Inherited 12 .ItemFn]

/-- The builder's output on `mod a {} fn a(){}`. -/
def modFnState : RState := build_reduced_graph emptyStore 1 modFnItems

/-- `use self::x;` — a Simple view path with a `self` segment in prefix
position. -/
def selfUseItems : List Item :=
  [Item.mk 1 ("u") [] .Inherited 41 (.ItemUse (.ViewPathSimple ("x") [("self"), ("x")] 42))]

/-- The builder's output on `use self::x;`. -/
def selfUseState : RState := build_reduced_graph emptyStore 1 selfUseItems

/-- `use x::y::{self, z as w};` (spec scenario 4). -/
def listSelfItems : List Item :=
  [Item.mk 1 ("u") [] .Inherited 21 (.ItemUse (.ViewPathList [("x"), ("y")]
    [⟨.PathListMod, none, 2, 22⟩, ⟨.PathListIdent ("z"), some ("w"), 3, 23⟩] 24))]

/-- The builder's output on `use x::y::{self, z as w};`. -/
def listSelfState : RState := build_reduced_graph emptyStore 1 listSelfItems

/-- Is a diagnostic a (deprecation) warning? -/
def isWarn (d : Diag) : Bool :=
  match d with
  | .span_warn _ _ => true
  | _ => false

/-- The number of `SelfImportsOnlyAllowedWithin` errors in a diagnostics
list. -/
def countSelfErr (l : List Diag) : Nat :=
  (l.filter (fun d =>
    match d with
    | .resolve_error _ .SelfImportsOnlyAllowedWithin => true
    | _ => false)).length

/-- The number of `DuplicateDefinition` errors in a diagnostics list. -/
def countDupErr (l : List Diag) : Nat :=
  (l.filter (fun d =>
    match d with
    | .resolve_error _ (.DuplicateDefinition _ _) => true
    | _ => false)).length

/-- C10 witness: the assertion dichotomy applied to a def-id-less unpopulated
module (abort) and to the populated root (success). -/
theorem populate_assert_dichotomy_witness :
    populate_module_if_necessary emptyStore 5 orphanState 1 = none ∧
    (populate_module_if_necessary emptyStore 5 initState 0).isSome = true :=
  ⟨(populate_assert_dichotomy emptyStore 5 orphanState 1).1 (by decide) (by decide),
   (populate_assert_dichotomy emptyStore 5 initState 0).2 (Or.inl (by decide))⟩

/-- C3 counterexample: on `mod a {} fn a(){}` the builder emits no
diagnostics at all — in particular not the claimed deprecation warning
"duplicate definition of type or module `a`" — while the cell holds the
module (type slot) and the `Fn` (value slot). -/
theorem mod_then_fn_no_warning :
    (modFnState.modules 0).children ("a") = some 0 ∧
    get_module_if_available (modFnState.bindings 0) = some 1 ∧
    (modFnState.bindings 0).value_def =
      some ⟨⟨false, true⟩, .DefFn ⟨0, 2⟩ false, some 12⟩ ∧
    modFnState.diags = [] ∧
    (modFnState.diags.filter isWarn).length = 0 := by decide

/-- C3 (amended): `mod a {} fn a(){}` puts the module in the type slot and
`Fn` in the value slot of `root.children[a]`, with no `DuplicateDefinition`
error and no deprecation warning (the module/struct warning does not apply to
functions): the builder emits no diagnostics. -/
theorem mod_then_fn_shape :
    (modFnState.modules 0).children ("a") = some 0 ∧
    get_module_if_available (modFnState.bindings 0) = some 1 ∧
    (modFnState.modules 1).kind = .NormalModuleKind ∧
    (modFnState.bindings 0).value_def =
      some ⟨⟨false, true⟩, .DefFn ⟨0, 2⟩ false, some 12⟩ ∧
    countDupErr modFnState.diags = 0 ∧
    modFnState.diags = [] := by decide

/-- C7: `use x::y::{self, z as w};` records exactly the two directives
`Single{binding=y, source=y}` with path `[x]` and `Single{binding=w,
source=z}` with path `[x, y]`, and bookkeeping entries for `y` and `w` with
one outstanding reference each. -/
theorem list_self_import_directives :
    (listSelfState.modules 0).imports =
      [⟨[("x")], .SingleImport ("y") ("y"), 22, 2, false, .Never⟩,
       ⟨[("x"), ("y")], .SingleImport ("w") ("z"), 23, 3, false, .Never⟩] ∧
    (listSelfState.modules 0).import_resolutions ("y") = some ⟨1, 2, 2, false⟩ ∧
    (listSelfState.modules 0).import_resolutions ("w") = some ⟨1, 3, 3, false⟩ ∧
    listSelfState.diags = [] := by decide

/-- C5 counterexample: `use self::x;` has the reserved segment `self` in its
source path, yet the builder emits no `SelfImportsOnlyAllowedWithin` (no
diagnostics at all): only the last segment is consulted. -/
theorem self_prefix_import_no_error :
    ("self") ∈ [("self"), ("x")] ∧
    selfUseState.diags = [] ∧
    countSelfErr selfUseState.diags = 0 ∧
    (selfUseState.modules 0).imports =
      [⟨[("self")], .SingleImport ("x") ("x"), 42, 1, false, .Never⟩] := by decide

set_option maxHeartbeats 1000000 in
theorem bid_diags (s : RState) (mid : Nat) (mp : List Name)
    (subclass : ImportDirectiveSubclass) (span : Span) (id : NodeId)
    (is_public : Bool) (shadowable : Shadowable) :
    (build_import_directive s mid mp subclass span id is_public shadowable).diags =
      s.diags := by
  simp only [build_import_directive]
  repeat' split
  all_goals rfl

/-- C5 (amended): a Simple `use` emits `SelfImportsOnlyAllowedWithin` exactly
when its last segment — the source name — is the reserved `mod` or `self`;
segments in prefix position are not consulted. -/
theorem simple_import_self_error_iff (cs : CStore) (fuel : Nat) (s : RState)
    (parentMid : Nat) (id : NodeId) (nm : Name) (attrs : List String) (vis : Visibility)
    (sp : Span) (binding : Name) (fullPath : List Name) (vsp : Span) :
    countSelfErr ((build_reduced_graph_for_item cs fuel s parentMid
        (Item.mk id nm attrs vis sp (.ItemUse (.ViewPathSimple binding fullPath vsp)))).1.diags) =
      countSelfErr s.diags +
        (if (fullPath.getLast?).getD ("") = ("mod") ∨ (fullPath.getLast?).getD ("") = ("self")
         then 1 else 0) := by
  simp only [build_reduced_graph_for_item]
  rw [bid_diags]
  split
  · next h =>
    simp only [Bool.or_eq_true, decide_eq_true_eq] at h
    rw [if_pos h]
    simp [pushDiag, countSelfErr, List.filter]
  · next h =>
    simp only [Bool.or_eq_true, decide_eq_true_eq] at h
    rw [if_neg h]
    rfl

/-- Does the cell hold a type binding that is not a module?  (The
`ForbidDuplicateTypesAndValues` type-side conflict test of `add_child`.) -/
def nonModuleTypeConflict (s : RState) (b : NameBindings) : Bool :=
  match def_for_namespace s b .TypeNS with
  | some (.DefMod _) => false
  | none => false
  | some _ => true

theorem check_items_modules (s : RState) (parentMid : Nat) (name : Name) (sp : Span) :
    (check_for_conflicts_between_external_crates_and_items s parentMid name sp).modules =
      s.modules := by
  unfold check_for_conflicts_between_external_crates_and_items
  split <;> rfl

theorem check_items_bindings (s : RState) (parentMid : Nat) (name : Name) (sp : Span) :
    (check_for_conflicts_between_external_crates_and_items s parentMid name sp).bindings =
      s.bindings := by
  unfold check_for_conflicts_between_external_crates_and_items
  split <;> rfl

theorem countDupErr_check_items (s : RState) (parentMid : Nat) (name : Name) (sp : Span) :
    countDupErr (check_for_conflicts_between_external_crates_and_items s parentMid name sp).diags =
      countDupErr s.diags := by
  unfold check_for_conflicts_between_external_crates_and_items
  split
  · simp [pushDiag, countDupErr, List.filter]
  · rfl

theorem def_for_namespace_check (s : RState) (parentMid : Nat) (name : Name)
    (sp : Span) (b : NameBindings) (ns : Namespace) :
    def_for_namespace (check_for_conflicts_between_external_crates_and_items s parentMid name sp)
        b ns =
      def_for_namespace s b ns := by
  unfold check_for_conflicts_between_external_crates_and_items
  split <;> rfl

theorem countDupErr_cons_note (l : List Diag) (sp : Span) (msg : String) :
    countDupErr (Diag.span_note sp msg :: l) = countDupErr l := by
  simp [countDupErr, List.filter]

theorem countDupErr_cons_dup (l : List Diag) (sp : Span) (w : String) (n : Name) :
    countDupErr (Diag.resolve_error sp (.DuplicateDefinition w n) :: l) =
      countDupErr l + 1 := by
  simp [countDupErr, List.filter]

/-- C4: under `ForbidDuplicateTypesAndValues` on an occupied cell, the caller
receives that very cell; a `DuplicateDefinition` error is emitted exactly
when the cell has a non-module type binding or any value binding; and when
the value side conflicts the `value` namespace is reported, otherwise
`type or module`. -/
theorem add_child_forbid_types_and_values (s : RState) (name : Name) (parentMid : Nat)
    (sp : Span) (bid : Nat) (h : (s.modules parentMid).children name = some bid) :
    (add_child s name parentMid .ForbidDuplicateTypesAndValues sp).2 = bid ∧
    countDupErr (add_child s name parentMid .ForbidDuplicateTypesAndValues sp).1.diags =
      countDupErr s.diags +
        (if nonModuleTypeConflict s (s.bindings bid) || (s.bindings bid).value_def.isSome
         then 1 else 0) ∧
    ((nonModuleTypeConflict s (s.bindings bid) || (s.bindings bid).value_def.isSome) = true →
      Diag.resolve_error sp (.DuplicateDefinition
        (if (s.bindings bid).value_def.isSome then ("value") else ("type or module")) name)
        ∈ (add_child s name parentMid .ForbidDuplicateTypesAndValues sp).1.diags) := by
  simp only [add_child, check_items_modules, check_items_bindings, h]
  cases hv : (s.bindings bid).value_def with
  | some vd =>
    simp only [defined_in_namespace, hv, Option.isSome_some, Bool.or_true,
      eq_self_iff_true, ite_true, if_true]
    rw [if_neg (by decide : ¬ (NamespaceError.ValueError = NamespaceError.NoError))]
    refine ⟨?_, ?_, fun _ => ?_⟩
    · split <;> rfl
    · split
      · simp only [pushDiag, countDupErr_cons_note, countDupErr_cons_dup,
          countDupErr_check_items]
      · simp only [pushDiag, countDupErr_cons_dup, countDupErr_check_items]
    · split
      · simp [pushDiag, namespace_error_to_string]
      · simp [pushDiag, namespace_error_to_string]
  | none =>
    simp only [defined_in_namespace, hv, Option.isSome_none, Bool.or_false,
      ite_false, if_false]
    cases hdfn : def_for_namespace s (s.bindings bid) .TypeNS with
    | none =>
      simp only [def_for_namespace_check, hdfn, nonModuleTypeConflict,
        Bool.false_eq_true, ite_false, Bool.or_false, eq_self_iff_true, ite_true]
      exact ⟨trivial, by simp [countDupErr_check_items], by simp⟩
    | some df =>
      cases df <;>
        simp only [def_for_namespace_check, hdfn, nonModuleTypeConflict,
          Bool.false_eq_true, ite_false, Bool.or_false, eq_self_iff_true, ite_true] <;>
        first
          | exact ⟨trivial, by simp [countDupErr_check_items], by simp⟩
          | (refine ⟨by split <;> rfl, ?_, fun _ => ?_⟩
             · split
               · next hcon => exact absurd hcon (by decide)
               · split
                 · simp only [pushDiag, countDupErr_cons_note, countDupErr_cons_dup,
                     countDupErr_check_items]
                 · simp only [pushDiag, countDupErr_cons_dup, countDupErr_check_items]
             · split
               · next hcon => exact absurd hcon (by decide)
               · split
                 · simp [pushDiag, namespace_error_to_string]
                 · simp [pushDiag, namespace_error_to_string])

/-- `fn a(){}` alone: a state whose root has an occupied cell `a` with a
value binding. -/
def fnOnlyState : RState :=
  build_reduced_graph emptyStore 1 [Item.mk 1 ("a") [] .Inherited 11 .ItemFn]

/-- C4 witness: the duplicate rule applied to the concrete cell `a` holding
a function; the value namespace is reported and the caller gets cell 0
back. -/
theorem add_child_forbid_types_and_values_witness :
    (fnOnlyState.modules 0).children ("a") = some 0 ∧
    ((add_child fnOnlyState ("a") 0 .ForbidDuplicateTypesAndValues 99).2 = 0 ∧
     countDupErr (add_child fnOnlyState ("a") 0 .ForbidDuplicateTypesAndValues 99).1.diags =
       countDupErr fnOnlyState.diags +
         (if nonModuleTypeConflict fnOnlyState (fnOnlyState.bindings 0) ||
             (fnOnlyState.bindings 0).value_def.isSome
          then 1 else 0) ∧
     ((nonModuleTypeConflict fnOnlyState (fnOnlyState.bindings 0) ||
         (fnOnlyState.bindings 0).value_def.isSome) = true →
       Diag.resolve_error 99 (.DuplicateDefinition
         (if (fnOnlyState.bindings 0).value_def.isSome then ("value")
          else ("type or module")) ("a"))
         ∈ (add_child fnOnlyState ("a") 0 .ForbidDuplicateTypesAndValues 99).1.diags)) :=
  ⟨by decide,
   add_child_forbid_types_and_values fnOnlyState ("a") 0 99 0 (by decide)⟩

set_option maxHeartbeats 1000000 in
theorem bid_imports_at (s : RState) (mid : Nat) (mp : List Name)
    (subclass : ImportDirectiveSubclass) (span : Span) (id : NodeId)
    (is_public : Bool) (shadowable : Shadowable) (j : Nat) :
    ((build_import_directive s mid mp subclass span id is_public shadowable).modules j).imports =
      if j = mid then
        (s.modules mid).imports ++ [⟨mp, subclass, span, id, is_public, shadowable⟩]
      else (s.modules j).imports := by
  simp only [build_import_directive]
  repeat' split
  all_goals by_cases hj : j = mid
  all_goals simp_all [modifyModuleAt_modules, bumpUnresolved, pubcnt_if_imports]

theorem initState_import_inv : AllImportInv initState := by
  intro i
  show importInv (if i = 0 then graph_root_module
    else Module.new .NoParentLink none .NormalModuleKind false false)
  split
  · exact importInv_new _ _ _ _ _
  · exact importInv_new _ _ _ _ _

/-- C6: (1) lowering one `use D::x;` item appends exactly one directive —
module path `D`, `Single{binding = x, source = x}` — to the enclosing
module's imports; (2) on the graph built for any crate, every module's
per-name outstanding-reference count equals the number of single directives
targeting that name. -/
theorem single_import_directive_and_counts :
    (∀ (cs : CStore) (fuel : Nat) (s : RState) (parentMid : Nat) (id : NodeId)
       (nm : Name) (attrs : List String) (vis : Visibility) (sp : Span)
       (x : Name) (D : List Name) (vsp : Span),
       ((build_reduced_graph_for_item cs fuel s parentMid
           (Item.mk id nm attrs vis sp (.ItemUse (.ViewPathSimple x (D ++ [x]) vsp)))).1.modules
           parentMid).imports =
         (s.modules parentMid).imports ++
           [⟨D, .SingleImport x x, vsp, id, vis.isPublicB,
             if attrs.contains ("prelude_import") then .Always else .Never⟩]) ∧
    (∀ (cs : CStore) (fuel : Nat) (krate : List Item) (i : Nat) (x : Name),
       outRefs (((build_reduced_graph cs fuel krate).modules i).import_resolutions x) =
         countSingles ((build_reduced_graph cs fuel krate).modules i).imports x) := by
  constructor
  · intro cs fuel s parentMid id nm attrs vis sp x D vsp
    simp only [build_reduced_graph_for_item]
    rw [bid_imports_at, if_pos rfl]
    rw [List.dropLast_concat, List.getLast?_concat]
    split
    · rfl
    · rfl
  · intro cs fuel krate i x
    exact (extends_visit_items cs fuel initState 0 krate).2.2.2 initState_import_inv i x

/-! ## Freshly created modules in external handling are external -/

/-- Step relation for `handle_external_def`: existing modules keep their
`is_external` flag and every newly allocated module is external. -/
def ExtNew (s t : RState) : Prop :=
  s.nmodules ≤ t.nmodules ∧
  (∀ j, j < s.nmodules → (t.modules j).is_external = (s.modules j).is_external) ∧
  (∀ j, s.nmodules ≤ j → j < t.nmodules → (t.modules j).is_external = true)

theorem extnew_refl (s : RState) : ExtNew s s :=
  ⟨le_refl _, fun _ _ => rfl, fun _ hle hlt => absurd (lt_of_le_of_lt hle hlt) (lt_irrefl _)⟩

theorem extnew_trans {a b c : RState} (h1 : ExtNew a b) (h2 : ExtNew b c) :
    ExtNew a c := by
  refine ⟨le_trans h1.1 h2.1, ?_, ?_⟩
  · intro j hj
    rw [h2.2.1 j (lt_of_lt_of_le hj h1.1), h1.2.1 j hj]
  · intro j hle hlt
    by_cases hb : j < b.nmodules
    · rw [h2.2.1 j hb]
      exact h1.2.2 j hle hb
    · exact h2.2.2 j (le_of_not_lt hb) hlt

theorem extnew_of_eq {s t : RState} (hm : t.modules = s.modules)
    (hn : t.nmodules = s.nmodules) : ExtNew s t := by
  refine ⟨le_of_eq hn.symm, ?_, ?_⟩
  · intro _ _; rw [hm]
  · intro j hle hlt
    rw [hn] at hlt
    exact absurd (lt_of_le_of_lt hle hlt) (lt_irrefl _)

theorem extnew_pushDiag (s : RState) (d : Diag) : ExtNew s (pushDiag s d) :=
  extnew_of_eq rfl rfl

theorem extnew_insertExternalExport (s : RState) (d : DefId) :
    ExtNew s (insertExternalExport s d) := extnew_of_eq rfl rfl

theorem extnew_insertStruct (s : RState) (d : DefId) (fields : List Name) :
    ExtNew s (insertStruct s d fields) := extnew_of_eq rfl rfl

theorem extnew_insertTraitItem (s : RState) (k : Name × DefId) (v : DefId) :
    ExtNew s (insertTraitItem s k v) := extnew_of_eq rfl rfl

theorem extnew_setAborted (s : RState) : ExtNew s (setAborted s) :=
  extnew_of_eq rfl rfl

theorem extnew_modifyBindingAt (s : RState) (i : Nat) (g : NameBindings → NameBindings) :
    ExtNew s (modifyBindingAt s i g) := extnew_of_eq rfl rfl

theorem extnew_modifyModuleAt (s : RState) (i : Nat) (g : Module → Module)
    (hg : ∀ m, (g m).is_external = m.is_external) :
    ExtNew s (modifyModuleAt s i g) := by
  refine ⟨le_refl _, ?_, ?_⟩
  · intro j _
    rw [modifyModuleAt_modules]
    split
    · next hj => subst hj; exact hg _
    · rfl
  · intro j hle hlt
    exact absurd (lt_of_le_of_lt hle hlt) (lt_irrefl _)

theorem extnew_allocModule (s : RState) (m : Module) (hm : m.is_external = true) :
    ExtNew s (allocModule s m).1 := by
  refine ⟨Nat.le_succ _, ?_, ?_⟩
  · intro j hj
    have h : (allocModule s m).1.modules j = updFn s.modules s.nmodules m j := rfl
    rw [h, updFn_apply, if_neg (Nat.ne_of_lt hj)]
  · intro j hle hlt
    have hj : j = s.nmodules := by
      have : j < s.nmodules + 1 := hlt
      omega
    have h : (allocModule s m).1.modules j = updFn s.modules s.nmodules m j := rfl
    rw [h, updFn_apply, if_pos hj]
    exact hm

theorem extnew_define_value (s : RState) (bid : Nat) (d : Def) (sp : Span)
    (mods : DefModifiers) : ExtNew s (define_value s bid d sp mods) :=
  extnew_modifyBindingAt _ _ _

theorem extnew_define_type (s : RState) (bid : Nat) (d : Def) (sp : Span)
    (mods : DefModifiers) : ExtNew s (define_type s bid d sp mods) :=
  extnew_modifyBindingAt _ _ _

theorem extnew_define_module_ext (s : RState) (bid : Nat) (pl : ParentLink)
    (def_id : Option DefId) (kind : ModuleKind) (is_public : Bool) (sp : Span) :
    ExtNew s (define_module s bid pl def_id kind true is_public sp).1 :=
  extnew_trans (extnew_allocModule s _ rfl) (extnew_modifyBindingAt _ _ _)

theorem extnew_set_module_kind_ext (s : RState) (bid : Nat) (pl : ParentLink)
    (def_id : Option DefId) (kind : ModuleKind) (is_public : Bool) (sp : Span) :
    ExtNew s (set_module_kind s bid pl def_id kind true is_public sp) := by
  unfold set_module_kind
  split
  · exact extnew_trans (extnew_allocModule s _ rfl) (extnew_modifyBindingAt _ _ _)
  · split
    · exact extnew_trans (extnew_allocModule s _ rfl) (extnew_modifyBindingAt _ _ _)
    · exact extnew_modifyModuleAt _ _ _ (fun m => rfl)

theorem extnew_external_module_merge (s : RState) (bid : Nat) (did : DefId)
    (kind : ModuleKind) (is_public : Bool) (np : Nat) (name : Name) :
    ExtNew s (external_module_merge s bid did kind is_public np name) := by
  unfold external_module_merge
  split
  · split
    · exact extnew_modifyModuleAt _ _ _ (fun m => rfl)
    · exact extnew_define_module_ext _ _ _ _ _ _ _
  · exact extnew_define_module_ext _ _ _ _ _ _ _

theorem extnew_export_if (s : RState) (c : Bool) (d : DefId) :
    ExtNew s (if c = true then insertExternalExport s d else s) := by
  split
  · exact extnew_insertExternalExport _ _
  · exact extnew_refl _

theorem extnew_external_trait_item_step (cs : CStore) (def_id : DefId)
    (is_exported : Bool) (acc : RState) (tid : DefId) :
    ExtNew acc (external_trait_item_step cs def_id is_exported acc tid) := by
  unfold external_trait_item_step
  split
  · exact extnew_trans (extnew_insertTraitItem _ _ _) (extnew_insertExternalExport _ _)
  · exact extnew_insertTraitItem _ _ _

set_option maxHeartbeats 2000000 in
theorem extnew_handle_external_def (cs : CStore) (s : RState) (d : Def)
    (vis : Visibility) (bid : Nat) (name : Name) (np : Nat) :
    ExtNew s (handle_external_def cs s d vis bid name np) := by
  cases d <;> simp only [handle_external_def] <;> (repeat' split) <;>
    (repeat
      first
        | exact extnew_refl _
        | exact extnew_export_if _ _ _
        | exact extnew_insertExternalExport _ _
        | refine extnew_trans ?_ (extnew_external_module_merge _ _ _ _ _ _ _)
        | refine extnew_trans ?_ (extnew_define_type _ _ _ _ _)
        | refine extnew_trans ?_ (extnew_define_value _ _ _ _ _)
        | refine extnew_trans ?_ (extnew_insertStruct _ _ _)
        | refine extnew_trans ?_ (extnew_set_module_kind_ext _ _ _ _ _ _ _)
        | refine extnew_trans ?_
            (foldl_rel extnew_refl (fun a b c h1 h2 => extnew_trans h1 h2)
              (fun t x => extnew_external_trait_item_step _ _ _ _ _) _ _)
        | refine extnew_trans ?_ (extnew_setAborted _))

/-! ## C2: external flags of builder-created modules -/

/-- A crate store that answers crate number 7 for node 1 and reports one
public module child `m` at the top level of crate 7. -/
def crate7Store : CStore :=
  { emptyStore with
      find_extern_mod_stmt_cnum := fun id => if id = 1 then some 7 else none,
      each_top_level_item_of_crate := fun k =>
        if k = 7 then [(.DlDef (.DefMod ⟨7, 5⟩), ("m"), .Public)] else [] }

/-- The state after building the one-item crate `extern crate foo;` against
`crate7Store`. -/
def externCrateState : RState :=
  build_reduced_graph crate7Store 10 [Item.mk 1 ("foo") [] .Inherited 31 .ItemExternCrate]

/-- C2 counterexample: the module the builder creates for the `extern crate`
item itself is registered under the root's external-module children and
carries the external crate's def id, yet its `is_external` flag is `false`
(source lines 398 to 402 pass `false` for `external` when allocating it),
while the companion module created for the external def `m` during the eager
build does have `is_external = true`. -/
theorem extern_crate_module_not_external :
    (externCrateState.modules 0).external_module_children ("foo") = some 1 ∧
    (externCrateState.modules 1).def_id = some ⟨7, CRATE_DEF_INDEX⟩ ∧
    (externCrateState.modules 1).is_external = false ∧
    (externCrateState.modules 2).is_external = true := by decide

/-- C2 (amended): (1) every module freshly allocated by `handle_external_def`
(the companion modules for external defs) has `is_external = true`; (2) the
`populated` flag is monotone: any module populated before a local visit stays
populated afterwards, and likewise across `populate_external_module`.  The
original claim fails only for the module allocated for the `extern crate`
item itself, which the builder creates with `is_external = false`. -/
theorem external_def_modules_external_and_populated_monotone :
    (∀ (cs : CStore) (s : RState) (d : Def) (vis : Visibility) (bid : Nat)
       (name : Name) (np : Nat) (j : Nat),
       s.nmodules ≤ j → j < (handle_external_def cs s d vis bid name np).nmodules →
       ((handle_external_def cs s d vis bid name np).modules j).is_external = true) ∧
    (∀ (cs : CStore) (fuel : Nat) (s : RState) (parentMid : Nat) (items : List Item)
       (i : Nat), i < s.nmodules → (s.modules i).populated = true →
       ((visit_items cs fuel s parentMid items).modules i).populated = true) ∧
    (∀ (cs : CStore) (fuel : Nat) (s : RState) (mid : Nat) (i : Nat),
       i < s.nmodules → (s.modules i).populated = true →
       ((populate_external_module cs fuel s mid).modules i).populated = true) := by
  refine ⟨?_, ?_, ?_⟩
  · intro cs s d vis bid name np j hle hlt
    exact (extnew_handle_external_def cs s d vis bid name np).2.2 j hle hlt
  · intro cs fuel s parentMid items i hi hp
    exact (extends_visit_items cs fuel s parentMid items).2.1 i hi hp
  · intro cs fuel s mid i hi hp
    exact (extends_populate_external_module cs fuel s mid).2.1 i hi hp

/-- Witness for the amended C2 theorem at concrete inputs: handling the
external def `mod m` from the initial state makes module 1 external, and the
root module stays populated across an empty visit. -/
theorem external_def_modules_external_and_populated_monotone_witness :
    ((handle_external_def emptyStore initState (.DefMod ⟨7, 5⟩) .Public 0 ("m") 0).modules 1).is_external = true ∧
    ((visit_items emptyStore 0 initState 0 []).modules 0).populated = true :=
  ⟨external_def_modules_external_and_populated_monotone.1 emptyStore initState
      (.DefMod ⟨7, 5⟩) .Public 0 ("m") 0 1 (by decide) (by decide),
    external_def_modules_external_and_populated_monotone.2.1 emptyStore 0 initState 0 []
      0 (by decide) (by decide)⟩

/-! ## C1: what survives the eager external build -/

/-- Module indices stored in binding cells point past the root and the
extern-crate module: every `module_def` target is at least 2.  Holds for the
state reached right after the extern-crate arm allocates module 1, and is
preserved by the external build (fresh modules get fresh indices). -/
def ModDefOk (s : RState) : Prop :=
  2 ≤ s.nmodules ∧
  ∀ b mid, ((s.bindings b).type_def.bind TypeNsDef.module_def) = some mid → 2 ≤ mid

/-- Frame relation for the external build: module count grows, no step
touches any `external_module_children` map of an existing module, and under
`ModDefOk` the def ids of modules 0 and 1 are untouched. -/
def C1Frame (s t : RState) : Prop :=
  s.nmodules ≤ t.nmodules ∧
  (∀ j, j < s.nmodules →
    (t.modules j).external_module_children = (s.modules j).external_module_children) ∧
  (ModDefOk s → ModDefOk t) ∧
  (ModDefOk s → ∀ j, j < s.nmodules → j < 2 → (t.modules j).def_id = (s.modules j).def_id)

theorem c1f_refl (s : RState) : C1Frame s s :=
  ⟨le_refl _, fun _ _ => rfl, fun h => h, fun _ _ _ _ => rfl⟩

theorem c1f_trans {a b c : RState} (h1 : C1Frame a b) (h2 : C1Frame b c) :
    C1Frame a c := by
  refine ⟨le_trans h1.1 h2.1, ?_, fun ha => h2.2.2.1 (h1.2.2.1 ha), ?_⟩
  · intro j hj
    rw [h2.2.1 j (lt_of_lt_of_le hj h1.1), h1.2.1 j hj]
  · intro ha j hj hj2
    rw [h2.2.2.2 (h1.2.2.1 ha) j (lt_of_lt_of_le hj h1.1) hj2, h1.2.2.2 ha j hj hj2]

theorem c1f_of_eq {s t : RState} (hm : t.modules = s.modules)
    (hn : t.nmodules = s.nmodules) (hb : t.bindings = s.bindings) : C1Frame s t := by
  refine ⟨le_of_eq hn.symm, fun j _ => by rw [hm], fun h => ?_, fun _ j _ _ => by rw [hm]⟩
  exact ⟨hn ▸ h.1, fun b mid hbm => h.2 b mid (by rw [← hb]; exact hbm)⟩

theorem c1f_pushDiag (s : RState) (d : Diag) : C1Frame s (pushDiag s d) :=
  c1f_of_eq rfl rfl rfl

theorem c1f_insertExternalExport (s : RState) (d : DefId) :
    C1Frame s (insertExternalExport s d) := c1f_of_eq rfl rfl rfl

theorem c1f_insertStruct (s : RState) (d : DefId) (fields : List Name) :
    C1Frame s (insertStruct s d fields) := c1f_of_eq rfl rfl rfl

theorem c1f_insertTraitItem (s : RState) (k : Name × DefId) (v : DefId) :
    C1Frame s (insertTraitItem s k v) := c1f_of_eq rfl rfl rfl

theorem c1f_setAborted (s : RState) : C1Frame s (setAborted s) :=
  c1f_of_eq rfl rfl rfl

theorem c1f_modifyModuleAt_frame (s : RState) (i : Nat) (g : Module → Module)
    (hemc : ∀ m, (g m).external_module_children = m.external_module_children)
    (hdef : ∀ m, (g m).def_id = m.def_id) :
    C1Frame s (modifyModuleAt s i g) := by
  refine ⟨le_refl _, ?_, fun h => h, ?_⟩
  · intro j _
    rw [modifyModuleAt_modules]
    split
    · next hj => subst hj; exact hemc _
    · rfl
  · intro _ j _ _
    rw [modifyModuleAt_modules]
    split
    · next hj => subst hj; exact hdef _
    · rfl

theorem c1f_set_def_id (s : RState) (i : Nat) (did : DefId)
    (hi : ModDefOk s → 2 ≤ i) :
    C1Frame s (modifyModuleAt s i (fun m => { m with def_id := some did })) := by
  refine ⟨le_refl _, ?_, fun h => h, ?_⟩
  · intro j _
    rw [modifyModuleAt_modules]
    split
    · next hj => subst hj; rfl
    · rfl
  · intro hmd j _ hj2
    have hne : j ≠ i := by
      intro hj
      subst hj
      exact absurd (hi hmd) (by omega)
    rw [modifyModuleAt_modules, if_neg hne]

theorem c1f_allocModule (s : RState) (m : Module) : C1Frame s (allocModule s m).1 := by
  refine ⟨Nat.le_succ _, ?_, fun h => ⟨le_trans h.1 (Nat.le_succ _), h.2⟩, ?_⟩
  · intro j hj
    have h : (allocModule s m).1.modules j = updFn s.modules s.nmodules m j := rfl
    rw [h, updFn_apply, if_neg (Nat.ne_of_lt hj)]
  · intro _ j hj _
    have h : (allocModule s m).1.modules j = updFn s.modules s.nmodules m j := rfl
    rw [h, updFn_apply, if_neg (Nat.ne_of_lt hj)]

theorem c1f_allocBinding (s : RState) : C1Frame s (allocBinding s).1 := by
  refine ⟨le_refl _, fun _ _ => rfl, fun h => ⟨h.1, ?_⟩, fun _ _ _ _ => rfl⟩
  intro b mid hbm
  have hb : (allocBinding s).1.bindings b = updFn s.bindings s.nbindings NameBindings.new b :=
    rfl
  rw [hb, updFn_apply] at hbm
  by_cases hbn : b = s.nbindings
  · rw [if_pos hbn] at hbm
    exact absurd hbm (by simp [NameBindings.new])
  · rw [if_neg hbn] at hbm
    exact h.2 b mid hbm

theorem c1f_modifyBindingAt (s : RState) (i : Nat) (g : NameBindings → NameBindings)
    (hg : ∀ b, ((g b).type_def.bind TypeNsDef.module_def) =
      (b.type_def.bind TypeNsDef.module_def)) :
    C1Frame s (modifyBindingAt s i g) := by
  refine ⟨le_refl _, fun _ _ => rfl, fun h => ⟨h.1, ?_⟩, fun _ _ _ _ => rfl⟩
  intro b mid hbm
  have hb : (modifyBindingAt s i g).bindings b = updFn s.bindings i (g (s.bindings i)) b :=
    rfl
  rw [hb, updFn_apply] at hbm
  by_cases hbn : b = i
  · rw [if_pos hbn, hg] at hbm
    exact h.2 i mid hbm
  · rw [if_neg hbn] at hbm
    exact h.2 b mid hbm

theorem c1f_define_value (s : RState) (bid : Nat) (d : Def) (sp : Span)
    (mods : DefModifiers) : C1Frame s (define_value s bid d sp mods) :=
  c1f_modifyBindingAt _ _ _ (fun _ => rfl)

theorem c1f_define_type (s : RState) (bid : Nat) (d : Def) (sp : Span)
    (mods : DefModifiers) : C1Frame s (define_type s bid d sp mods) :=
  c1f_modifyBindingAt _ _ _ (fun _ => rfl)

theorem c1f_module_def_to_fresh (s : RState) (bid : Nat) (m' : Module)
    (g : NameBindings → NameBindings)
    (hg : ∀ b, ((g b).type_def.bind TypeNsDef.module_def) = some s.nmodules) :
    C1Frame s (modifyBindingAt (allocModule s m').1 bid g) := by
  refine ⟨Nat.le_succ _, ?_, fun h => ⟨le_trans h.1 (Nat.le_succ _), ?_⟩, ?_⟩
  · intro j hj
    have he : (modifyBindingAt (allocModule s m').1 bid g).modules j =
        updFn s.modules s.nmodules m' j := rfl
    rw [he, updFn_apply, if_neg (Nat.ne_of_lt hj)]
  · intro b mid hbm
    have hb : (modifyBindingAt (allocModule s m').1 bid g).bindings b =
        updFn s.bindings bid (g (s.bindings bid)) b := rfl
    rw [hb, updFn_apply] at hbm
    by_cases hbn : b = bid
    · rw [if_pos hbn, hg] at hbm
      exact (Option.some.inj hbm) ▸ h.1
    · rw [if_neg hbn] at hbm
      exact h.2 b mid hbm
  · intro _ j hj _
    have he : (modifyBindingAt (allocModule s m').1 bid g).modules j =
        updFn s.modules s.nmodules m' j := rfl
    rw [he, updFn_apply, if_neg (Nat.ne_of_lt hj)]

theorem c1f_define_module (s : RState) (bid : Nat) (pl : ParentLink)
    (def_id : Option DefId) (kind : ModuleKind) (external : Bool)
    (is_public : Bool) (sp : Span) :
    C1Frame s (define_module s bid pl def_id kind external is_public sp).1 :=
  c1f_module_def_to_fresh s bid _ _ (fun _ => rfl)

theorem c1f_set_module_kind (s : RState) (bid : Nat) (pl : ParentLink)
    (def_id : Option DefId) (kind : ModuleKind) (external : Bool)
    (is_public : Bool) (sp : Span) :
    C1Frame s (set_module_kind s bid pl def_id kind external is_public sp) := by
  unfold set_module_kind
  split
  · exact c1f_module_def_to_fresh s bid _ _ (fun _ => rfl)
  · split
    · exact c1f_module_def_to_fresh s bid _ _ (fun _ => rfl)
    · exact c1f_modifyModuleAt_frame _ _ _ (fun m => rfl) (fun m => rfl)

theorem c1f_check_items (s : RState) (parentMid : Nat) (name : Name) (sp : Span) :
    C1Frame s (check_for_conflicts_between_external_crates_and_items s parentMid name sp) := by
  unfold check_for_conflicts_between_external_crates_and_items
  split
  · exact c1f_pushDiag _ _
  · exact c1f_refl _

theorem c1f_add_child (s : RState) (name : Name) (parentMid : Nat)
    (mode : DuplicateCheckingMode) (sp : Span) :
    C1Frame s (add_child s name parentMid mode sp).1 := by
  simp only [add_child]
  refine c1f_trans (c1f_check_items s parentMid name sp) ?_
  generalize (check_for_conflicts_between_external_crates_and_items s parentMid name sp) = s1
  split
  · refine c1f_trans (c1f_allocBinding _) ?_
    exact c1f_modifyModuleAt_frame _ _ _ (fun m => rfl) (fun m => rfl)
  · cases mode <;> (repeat' split) <;> exact c1f_of_eq rfl rfl rfl

theorem c1f_external_module_merge (s : RState) (bid : Nat) (did : DefId)
    (kind : ModuleKind) (is_public : Bool) (np : Nat) (name : Name) :
    C1Frame s (external_module_merge s bid did kind is_public np name) := by
  unfold external_module_merge
  split
  · next td htd =>
    split
    · next mid hmid =>
      refine c1f_set_def_id s mid did ?_
      intro hmd
      refine hmd.2 bid mid ?_
      rw [htd]
      exact hmid
    · exact c1f_define_module _ _ _ _ _ _ _ _
  · exact c1f_define_module _ _ _ _ _ _ _ _

theorem c1f_export_if (s : RState) (c : Bool) (d : DefId) :
    C1Frame s (if c = true then insertExternalExport s d else s) := by
  split
  · exact c1f_insertExternalExport _ _
  · exact c1f_refl _

theorem c1f_external_trait_item_step (cs : CStore) (def_id : DefId)
    (is_exported : Bool) (acc : RState) (tid : DefId) :
    C1Frame acc (external_trait_item_step cs def_id is_exported acc tid) := by
  unfold external_trait_item_step
  split
  · exact c1f_trans (c1f_insertTraitItem _ _ _) (c1f_insertExternalExport _ _)
  · exact c1f_insertTraitItem _ _ _

set_option maxHeartbeats 2000000 in
theorem c1f_handle_external_def (cs : CStore) (s : RState) (d : Def)
    (vis : Visibility) (bid : Nat) (name : Name) (np : Nat) :
    C1Frame s (handle_external_def cs s d vis bid name np) := by
  cases d <;> simp only [handle_external_def] <;> (repeat' split) <;>
    (repeat
      first
        | exact c1f_refl _
        | exact c1f_export_if _ _ _
        | exact c1f_insertExternalExport _ _
        | refine c1f_trans ?_ (c1f_external_module_merge _ _ _ _ _ _ _)
        | refine c1f_trans ?_ (c1f_define_type _ _ _ _ _)
        | refine c1f_trans ?_ (c1f_define_value _ _ _ _ _)
        | refine c1f_trans ?_ (c1f_insertStruct _ _ _)
        | refine c1f_trans ?_ (c1f_set_module_kind _ _ _ _ _ _ _ _)
        | refine c1f_trans ?_
            (foldl_rel c1f_refl (fun a b c h1 h2 => c1f_trans h1 h2)
              (fun t x => c1f_external_trait_item_step _ _ _ _ _) _ _)
        | refine c1f_trans ?_ (c1f_setAborted _))

theorem c1f_handle_one_external (cs : CStore) (s : RState) (rootMid : Nat)
    (d : Def) (name : Name) (vis : Visibility) :
    C1Frame s (handle_one_external cs s rootMid d name vis) := by
  simp only [handle_one_external]
  exact c1f_trans (c1f_add_child _ _ _ _ _) (c1f_handle_external_def _ _ _ _ _ _ _)

theorem c1f_external_crate_def (cs : CStore) : ∀ (fuel : Nat) (s : RState)
    (rootMid : Nat) (dl : DefLike) (name : Name) (vis : Visibility),
    C1Frame s (build_reduced_graph_for_external_crate_def cs fuel s rootMid dl name vis) := by
  intro fuel
  induction fuel with
  | zero =>
    intro s rootMid dl name vis
    cases dl with
    | DlImpl => exact c1f_refl _
    | DlField => exact c1f_refl _
    | DlDef d =>
      simp only [build_reduced_graph_for_external_crate_def]
      split
      · exact c1f_refl _
      · exact c1f_handle_one_external _ _ _ _ _ _
  | succ n ih =>
    intro s rootMid dl name vis
    cases dl with
    | DlImpl => exact c1f_refl _
    | DlField => exact c1f_refl _
    | DlDef d =>
      simp only [build_reduced_graph_for_external_crate_def]
      split
      · exact foldl_rel c1f_refl (fun a b c h1 h2 => c1f_trans h1 h2)
          (fun t (x : DefLike × Name × Visibility) => ih t rootMid x.1 x.2.1 x.2.2) _ _
      · exact c1f_handle_one_external _ _ _ _ _ _

theorem c1f_populate_external_module (cs : CStore) (fuel : Nat) (s : RState)
    (mid : Nat) : C1Frame s (populate_external_module cs fuel s mid) := by
  unfold populate_external_module
  split
  · exact c1f_refl _
  · refine c1f_trans ?_ (c1f_modifyModuleAt_frame _ _ _ (fun m => rfl) (fun m => rfl))
    exact foldl_rel c1f_refl (fun a b c h1 h2 => c1f_trans h1 h2)
      (fun t (x : DefLike × Name × Visibility) =>
        c1f_external_crate_def cs fuel t mid x.1 x.2.1 x.2.2) _ _

theorem c1f_external_crate (cs : CStore) (fuel : Nat) (s : RState) (rootMid : Nat) :
    C1Frame s (build_reduced_graph_for_external_crate cs fuel s rootMid) := by
  unfold build_reduced_graph_for_external_crate
  split
  · exact c1f_refl _
  · exact foldl_rel c1f_refl (fun a b c h1 h2 => c1f_trans h1 h2)
      (fun t (x : DefLike × Name × Visibility) =>
        c1f_external_crate_def cs fuel t rootMid x.1 x.2.1 x.2.2) _ _

theorem c1_core (cs : CStore) (fuel : Nat) (s : RState) (name : Name) (cnum : CrateNum)
    (hmd : ModDefOk s)
    (h0 : (s.modules 0).external_module_children name = some 1)
    (h1 : (s.modules 1).def_id = some ⟨cnum, CRATE_DEF_INDEX⟩)
    (h2 : (s.modules 1).populated = true)
    (h3 : (⟨cnum, CRATE_DEF_INDEX⟩ : DefId) ∈ s.external_exports) :
    ((build_reduced_graph_for_external_crate cs fuel s 1).modules 0).external_module_children
        name = some 1 ∧
    ((build_reduced_graph_for_external_crate cs fuel s 1).modules 1).def_id =
        some ⟨cnum, CRATE_DEF_INDEX⟩ ∧
    ((build_reduced_graph_for_external_crate cs fuel s 1).modules 1).populated = true ∧
    (⟨cnum, CRATE_DEF_INDEX⟩ : DefId) ∈
        (build_reduced_graph_for_external_crate cs fuel s 1).external_exports := by
  have hf := c1f_external_crate cs fuel s 1
  have he := extends_external_crate cs fuel s 1
  have hn0 : 0 < s.nmodules := lt_of_lt_of_le (by decide) hmd.1
  have hn1 : 1 < s.nmodules := lt_of_lt_of_le (by decide) hmd.1
  refine ⟨?_, ?_, he.2.1 1 hn1 h2, he.2.2.1 _ h3⟩
  · rw [hf.2.1 0 hn0]
    exact h0
  · rw [hf.2.2.2 hmd 1 hn1 (by decide)]
    exact h1

/-- C1: building the one-item crate `extern crate name;` when the crate store
maps the item to crate number `cnum` leaves in the root's
`external_module_children` under `name` the module at index 1, whose def id
is `{cnum, CRATE_DEF_INDEX}`; that module's `populated` flag is true after
the eager external build, and `{cnum, CRATE_DEF_INDEX}` is in
`external_exports`. -/
theorem extern_crate_builds_root_entry (cs : CStore) (fuel : Nat) (id : NodeId)
    (cnum : CrateNum) (name : Name) (attrs : List String) (vis : Visibility)
    (sp : Span) (h : cs.find_extern_mod_stmt_cnum id = some cnum) :
    ((build_reduced_graph cs fuel
        [Item.mk id name attrs vis sp .ItemExternCrate]).modules 0).external_module_children
        name = some 1 ∧
    ((build_reduced_graph cs fuel
        [Item.mk id name attrs vis sp .ItemExternCrate]).modules 1).def_id =
        some ⟨cnum, CRATE_DEF_INDEX⟩ ∧
    ((build_reduced_graph cs fuel
        [Item.mk id name attrs vis sp .ItemExternCrate]).modules 1).populated = true ∧
    (⟨cnum, CRATE_DEF_INDEX⟩ : DefId) ∈
        (build_reduced_graph cs fuel
          [Item.mk id name attrs vis sp .ItemExternCrate]).external_exports := by
  simp only [build_reduced_graph, visit_items, visit_item, build_reduced_graph_for_item, h]
  refine c1_core cs fuel _ name cnum ?_ ?_ ?_ ?_ ?_
  · constructor
    · simp [check_for_conflicts_between_external_crates, modifyModuleAt, allocModule,
        insertExternalExport, initState, graph_root_module, Module.new, updFn]
    · intro b mid hbm
      simp [check_for_conflicts_between_external_crates, modifyModuleAt, allocModule,
        insertExternalExport, initState, graph_root_module, Module.new, updFn,
        NameBindings.new] at hbm
  · simp [check_for_conflicts_between_external_crates, modifyModuleAt, allocModule,
      insertExternalExport, initState, graph_root_module, Module.new, updFn, updName]
  · simp [check_for_conflicts_between_external_crates, modifyModuleAt, allocModule,
      insertExternalExport, initState, graph_root_module, Module.new, updFn, updName]
  · simp [check_for_conflicts_between_external_crates, modifyModuleAt, allocModule,
      insertExternalExport, initState, graph_root_module, Module.new, updFn, updName]
  · simp [check_for_conflicts_between_external_crates, modifyModuleAt, allocModule,
      insertExternalExport, initState, graph_root_module, Module.new, updFn, updName,
      insertExport, pushDiag]

/-- Witness for C1 at the concrete store `crate7Store` (crate number 7 for
node 1). -/
theorem extern_crate_builds_root_entry_witness :
    ((build_reduced_graph crate7Store 10
        [Item.mk 1 ("foo") [] .Inherited 31 .ItemExternCrate]).modules 0).external_module_children
        ("foo") = some 1 ∧
    ((build_reduced_graph crate7Store 10
        [Item.mk 1 ("foo") [] .Inherited 31 .ItemExternCrate]).modules 1).def_id =
        some ⟨7, CRATE_DEF_INDEX⟩ ∧
    ((build_reduced_graph crate7Store 10
        [Item.mk 1 ("foo") [] .Inherited 31 .ItemExternCrate]).modules 1).populated = true ∧
    (⟨7, CRATE_DEF_INDEX⟩ : DefId) ∈
        (build_reduced_graph crate7Store 10
          [Item.mk 1 ("foo") [] .Inherited 31 .ItemExternCrate]).external_exports :=
  extern_crate_builds_root_entry crate7Store 10 1 7 ("foo") [] .Inherited 31 (by decide)

/-! ## C8: enum variants land in both namespaces of the companion module -/

theorem add_child_fresh (s : RState) (name : Name) (parentMid : Nat)
    (mode : DuplicateCheckingMode) (sp : Span)
    (hfresh : (s.modules parentMid).children name = none) :
    (add_child s name parentMid mode sp).2 = s.nbindings ∧
    (add_child s name parentMid mode sp).1.nbindings = s.nbindings + 1 ∧
    (add_child s name parentMid mode sp).1.nmodules = s.nmodules ∧
    (add_child s name parentMid mode sp).1.modules =
      updFn s.modules parentMid
        { s.modules parentMid with
            children := updName (s.modules parentMid).children name (some s.nbindings) } ∧
    (add_child s name parentMid mode sp).1.bindings =
      updFn s.bindings s.nbindings NameBindings.new := by
  unfold add_child check_for_conflicts_between_external_crates_and_items
  split
  · simp [pushDiag, hfresh, allocBinding, modifyModuleAt]
  · simp [hfresh, allocBinding, modifyModuleAt]

theorem insertStruct_modules (s : RState) (d : DefId) (f : List Name) :
    (insertStruct s d f).modules = s.modules := rfl

theorem insertStruct_bindings (s : RState) (d : DefId) (f : List Name) :
    (insertStruct s d f).bindings = s.bindings := rfl

theorem insertStruct_nbindings (s : RState) (d : DefId) (f : List Name) :
    (insertStruct s d f).nbindings = s.nbindings := rfl

theorem insertStruct_nmodules (s : RState) (d : DefId) (f : List Name) :
    (insertStruct s d f).nmodules = s.nmodules := rfl

theorem variant_step (s : RState) (v : Variant) (E : DefId) (M : Nat)
    (hnone : (s.modules M).children v.name = none) :
    (build_reduced_graph_for_variant s v E M).nbindings = s.nbindings + 1 ∧
    (build_reduced_graph_for_variant s v E M).nmodules = s.nmodules ∧
    (build_reduced_graph_for_variant s v E M).modules =
      updFn s.modules M
        { s.modules M with
            children := updName (s.modules M).children v.name (some s.nbindings) } ∧
    (build_reduced_graph_for_variant s v E M).bindings =
      updFn s.bindings s.nbindings
        { type_def := some ⟨DefModifiers.publicImportable, none,
            some (.DefVariant E (local_def_id v.data_id) v.data_is_struct), some v.span⟩,
          value_def := some ⟨DefModifiers.publicImportable,
            .DefVariant E (local_def_id v.data_id) v.data_is_struct, some v.span⟩ } := by
  by_cases hv : v.data_is_struct
  · have hnone2 : ((insertStruct s (local_def_id v.data_id) []).modules M).children
        v.name = none := hnone
    obtain ⟨ha2, hanb, hanm, hamod, habind⟩ :=
      add_child_fresh (insertStruct s (local_def_id v.data_id) []) v.name M
        .ForbidDuplicateTypesAndValues v.span hnone2
    simp only [insertStruct_modules, insertStruct_bindings, insertStruct_nbindings,
      insertStruct_nmodules] at ha2 hanb hanm hamod habind
    simp only [build_reduced_graph_for_variant, hv, if_true, define_value, define_type,
      modifyBindingAt]
    refine ⟨by simp [hanb], by simp [hanm], by simp [hamod], ?_⟩
    funext b
    by_cases hb : b = s.nbindings
    · simp [hb, ha2, habind, updFn_apply, NameBindings.new, hv]
    · simp [hb, ha2, habind, updFn_apply]
  · obtain ⟨ha2, hanb, hanm, hamod, habind⟩ :=
      add_child_fresh s v.name M .ForbidDuplicateTypesAndValues v.span hnone
    simp only [build_reduced_graph_for_variant, hv, if_false, define_value, define_type,
      modifyBindingAt]
    refine ⟨by simp [hanb], by simp [hanm], by simp [hamod], ?_⟩
    funext b
    by_cases hb : b = s.nbindings
    · simp [hb, ha2, habind, updFn_apply, NameBindings.new, hv]
    · simp [hb, ha2, habind, updFn_apply]

set_option maxHeartbeats 1000000 in
theorem variants_fold_facts (E : DefId) (M : Nat) :
    ∀ (vs : List Variant) (s : RState),
    (∀ v ∈ vs, ((s.modules M).children v.name) = none) →
    (vs.map Variant.name).Nodup →
    s.nbindings ≤
      (vs.foldl (fun acc v => build_reduced_graph_for_variant acc v E M) s).nbindings ∧
    (∀ b, b < s.nbindings →
      (vs.foldl (fun acc v => build_reduced_graph_for_variant acc v E M) s).bindings b =
        s.bindings b) ∧
    (∀ j, j ≠ M →
      (vs.foldl (fun acc v => build_reduced_graph_for_variant acc v E M) s).modules j =
        s.modules j) ∧
    (∀ n, n ∉ vs.map Variant.name →
      ((vs.foldl (fun acc v => build_reduced_graph_for_variant acc v E M) s).modules
          M).children n = (s.modules M).children n) ∧
    (∀ v ∈ vs, ∃ bid,
      ((vs.foldl (fun acc v => build_reduced_graph_for_variant acc v E M) s).modules
          M).children v.name = some bid ∧
      ((vs.foldl (fun acc v => build_reduced_graph_for_variant acc v E M) s).bindings
          bid).value_def = some ⟨DefModifiers.publicImportable,
        .DefVariant E (local_def_id v.data_id) v.data_is_struct, some v.span⟩ ∧
      ((vs.foldl (fun acc v => build_reduced_graph_for_variant acc v E M) s).bindings
          bid).type_def = some ⟨DefModifiers.publicImportable, none,
        some (.DefVariant E (local_def_id v.data_id) v.data_is_struct), some v.span⟩) := by
  intro vs
  induction vs with
  | nil =>
    intro s _ _
    exact ⟨le_refl _, fun _ _ => rfl, fun _ _ => rfl, fun _ _ => rfl,
      fun v hv => absurd hv (List.not_mem_nil v)⟩
  | cons v rest ih =>
    intro s hch hnd
    obtain ⟨st1, st2, st3, st4⟩ := variant_step s v E M (hch v (List.mem_cons_self v rest))
    have hmap : (List.map Variant.name (v :: rest)) = v.name :: rest.map Variant.name :=
      rfl
    rw [hmap, List.nodup_cons] at hnd
    have hch2 : ∀ w ∈ rest, (((build_reduced_graph_for_variant s v E M).modules M).children
        w.name) = none := by
      intro w hw
      rw [st3, updFn_apply, if_pos rfl]
      show updName (s.modules M).children v.name (some s.nbindings) w.name = none
      rw [updName_apply, if_neg, hch w (List.mem_cons_of_mem v hw)]
      intro hwv
      exact hnd.1 (hwv ▸ List.mem_map_of_mem Variant.name hw)
    obtain ⟨ihA, ihB, ihC, ihD, ihE⟩ := ih (build_reduced_graph_for_variant s v E M) hch2 hnd.2
    have hfold : (v :: rest).foldl (fun acc v => build_reduced_graph_for_variant acc v E M) s =
        rest.foldl (fun acc v => build_reduced_graph_for_variant acc v E M)
          (build_reduced_graph_for_variant s v E M) := rfl
    refine ⟨?_, ?_, ?_, ?_, ?_⟩
    · rw [hfold]
      refine le_trans ?_ ihA
      rw [st1]
      exact Nat.le_succ _
    · intro b hb
      rw [hfold, ihB b (by rw [st1]; exact lt_of_lt_of_le hb (Nat.le_succ _)), st4,
        updFn_apply, if_neg (Nat.ne_of_lt hb)]
    · intro j hj
      rw [hfold, ihC j hj, st3, updFn_apply, if_neg hj]
    · intro n hn
      rw [hmap] at hn
      have hn1 : n ≠ v.name := fun h => hn (h ▸ List.mem_cons_self _ _)
      have hn2 : n ∉ rest.map Variant.name := fun h => hn (List.mem_cons_of_mem _ h)
      rw [hfold, ihD n hn2, st3, updFn_apply, if_pos rfl]
      show updName (s.modules M).children v.name (some s.nbindings) n = _
      rw [updName_apply, if_neg hn1]
    · intro w hw
      rw [hfold]
      rcases List.mem_cons.mp hw with hw1 | hw2
      · subst hw1
        refine ⟨s.nbindings, ?_, ?_, ?_⟩
        · rw [ihD w.name (fun h => hnd.1 h), st3, updFn_apply, if_pos rfl]
          show updName (s.modules M).children w.name (some s.nbindings) w.name = _
          rw [updName_apply, if_pos rfl]
        · rw [ihB s.nbindings (by rw [st1]; exact Nat.lt_succ_self _), st4,
            updFn_apply, if_pos rfl]
        · rw [ihB s.nbindings (by rw [st1]; exact Nat.lt_succ_self _), st4,
            updFn_apply, if_pos rfl]
      · exact ihE w hw2

theorem enum_fold_result (E : DefId) (pM M ebid : Nat) (name : Name)
    (vs : List Variant) (t : RState)
    (hnd : (vs.map Variant.name).Nodup)
    (hch : ∀ n, (t.modules M).children n = none)
    (hpc : (t.modules pM).children name = some ebid)
    (hgm : get_module_if_available (t.bindings ebid) = some M)
    (hbid : ebid < t.nbindings)
    (hne : M ≠ pM) :
    (((vs.foldl (fun acc v => build_reduced_graph_for_variant acc v E M) t).modules
        pM).children name = some ebid) ∧
    (get_module_if_available
        ((vs.foldl (fun acc v => build_reduced_graph_for_variant acc v E M) t).bindings
          ebid) = some M) ∧
    (∀ v ∈ vs, ∃ bid,
      ((vs.foldl (fun acc v => build_reduced_graph_for_variant acc v E M) t).modules
          M).children v.name = some bid ∧
      ((vs.foldl (fun acc v => build_reduced_graph_for_variant acc v E M) t).bindings
          bid).value_def = some ⟨DefModifiers.publicImportable,
        .DefVariant E (local_def_id v.data_id) v.data_is_struct, some v.span⟩ ∧
      ((vs.foldl (fun acc v => build_reduced_graph_for_variant acc v E M) t).bindings
          bid).type_def = some ⟨DefModifiers.publicImportable, none,
        some (.DefVariant E (local_def_id v.data_id) v.data_is_struct), some v.span⟩) := by
  obtain ⟨hA, hB, hC, hD, hE⟩ :=
    variants_fold_facts E M vs t (fun v _ => hch v.name) hnd
  refine ⟨?_, ?_, hE⟩
  · rw [hC pM (fun h => hne h.symm)]
    exact hpc
  · rw [hB ebid hbid]
    exact hgm

/-- The state of the `ItemEnum` arm just before the variants fold. -/
def enumT (s : RState) (parentMid : Nat) (id : NodeId) (name : Name)
    (vis : Visibility) (sp : Span) : RState :=
  set_module_kind
    (define_type (add_child s name parentMid .ForbidDuplicateTypesAndModules sp).1
      (add_child s name parentMid .ForbidDuplicateTypesAndModules sp).2
      (.DefTy (local_def_id id) true) sp (DefModifiers.forItem vis.isPublicB))
    (add_child s name parentMid .ForbidDuplicateTypesAndModules sp).2
    (.ModuleParentLink parentMid name) (some (local_def_id id)) .EnumModuleKind false
    vis.isPublicB sp

set_option maxHeartbeats 1000000 in
theorem enumT_facts (s : RState) (parentMid : Nat) (id : NodeId) (name : Name)
    (vis : Visibility) (sp : Span)
    (hfresh : (s.modules parentMid).children name = none) :
    (get_module_if_available ((enumT s parentMid id name vis sp).bindings
        (add_child s name parentMid .ForbidDuplicateTypesAndModules sp).2) =
      some s.nmodules) ∧
    (∀ n, ((enumT s parentMid id name vis sp).modules s.nmodules).children n = none) ∧
    ((parentMid < s.nmodules →
      ((enumT s parentMid id name vis sp).modules parentMid).children name =
        some s.nbindings)) ∧
    ((add_child s name parentMid .ForbidDuplicateTypesAndModules sp).2 = s.nbindings) ∧
    (s.nbindings < (enumT s parentMid id name vis sp).nbindings) := by
  obtain ⟨ha2, hanb, hanm, hamod, habind⟩ :=
    add_child_fresh s name parentMid .ForbidDuplicateTypesAndModules sp hfresh
  have hD : ((define_type (add_child s name parentMid .ForbidDuplicateTypesAndModules
        sp).1 (add_child s name parentMid .ForbidDuplicateTypesAndModules sp).2
        (.DefTy (local_def_id id) true) sp (DefModifiers.forItem vis.isPublicB)).bindings
        (add_child s name parentMid .ForbidDuplicateTypesAndModules sp).2).type_def =
      some ⟨DefModifiers.forItem vis.isPublicB, none, some (.DefTy (local_def_id id) true),
        some sp⟩ := by
    simp [define_type, modifyBindingAt, updFn_apply, habind, ha2, NameBindings.new]
  refine ⟨?_, ?_, ?_, ha2, ?_⟩
  · simp only [enumT, set_module_kind, hD]
    simp [modifyBindingAt, allocModule, updFn_apply, get_module_if_available,
      define_type, hanm, hanb, habind, ha2, NameBindings.new]
  · intro n
    simp only [enumT, set_module_kind, hD]
    simp [modifyBindingAt, allocModule, updFn_apply, define_type, hanm, hanb, habind,
      ha2, NameBindings.new, Module.new]
  · intro hpm
    simp only [enumT, set_module_kind, hD]
    simp [modifyBindingAt, allocModule, updFn_apply, define_type, hanm, hanb, habind,
      ha2, NameBindings.new, hamod, Nat.ne_of_lt hpm, Ne.symm (Nat.ne_of_lt hpm),
      updName_apply]
  · simp only [enumT, set_module_kind, hD]
    simp [modifyBindingAt, allocModule, define_type, hanb]

theorem enum_item_eq (cs : CStore) (fuel : Nat) (s : RState) (parentMid : Nat)
    (id : NodeId) (name : Name) (attrs : List String) (vis : Visibility) (sp : Span)
    (variants : List Variant)
    (hfresh : (s.modules parentMid).children name = none) :
    (build_reduced_graph_for_item cs fuel s parentMid
        (Item.mk id name attrs vis sp (.ItemEnum variants))).1 =
      variants.foldl (fun acc v => build_reduced_graph_for_variant acc v
        (local_def_id id) s.nmodules) (enumT s parentMid id name vis sp) := by
  have hm := (enumT_facts s parentMid id name vis sp hfresh).1
  simp only [build_reduced_graph_for_item, enumT] at hm ⊢
  rw [hm]
  rfl

/-- C8: for a locally-defined `enum` item whose name is fresh in the parent
and whose variant names are distinct, the parent's child cell for the enum
holds the companion Enum module (index `s.nmodules`), and for every variant
the companion module has a child cell whose value slot and type slot both
hold `DefVariant(E, V, is_struct_variant)` with modifiers
`PUBLIC | IMPORTABLE`. -/
theorem enum_variants_define_both_slots (cs : CStore) (fuel : Nat) (s : RState)
    (parentMid : Nat) (id : NodeId) (name : Name) (attrs : List String)
    (vis : Visibility) (sp : Span) (variants : List Variant)
    (hpm : parentMid < s.nmodules)
    (hfresh : (s.modules parentMid).children name = none)
    (hnd : (variants.map Variant.name).Nodup) :
    (((build_reduced_graph_for_item cs fuel s parentMid
        (Item.mk id name attrs vis sp (.ItemEnum variants))).1.modules
        parentMid).children name = some s.nbindings) ∧
    (get_module_if_available ((build_reduced_graph_for_item cs fuel s parentMid
        (Item.mk id name attrs vis sp (.ItemEnum variants))).1.bindings s.nbindings) =
      some s.nmodules) ∧
    (∀ v ∈ variants, ∃ bid,
      (((build_reduced_graph_for_item cs fuel s parentMid
          (Item.mk id name attrs vis sp (.ItemEnum variants))).1.modules
          s.nmodules).children v.name = some bid) ∧
      (((build_reduced_graph_for_item cs fuel s parentMid
          (Item.mk id name attrs vis sp (.ItemEnum variants))).1.bindings
          bid).value_def = some ⟨DefModifiers.publicImportable,
        .DefVariant (local_def_id id) (local_def_id v.data_id) v.data_is_struct,
        some v.span⟩) ∧
      (((build_reduced_graph_for_item cs fuel s parentMid
          (Item.mk id name attrs vis sp (.ItemEnum variants))).1.bindings
          bid).type_def = some ⟨DefModifiers.publicImportable, none,
        some (.DefVariant (local_def_id id) (local_def_id v.data_id) v.data_is_struct),
        some v.span⟩)) := by
  obtain ⟨f1, f2, f3, f4, f5⟩ := enumT_facts s parentMid id name vis sp hfresh
  rw [enum_item_eq cs fuel s parentMid id name attrs vis sp variants hfresh]
  exact enum_fold_result (local_def_id id) parentMid s.nmodules s.nbindings name
    variants (enumT s parentMid id name vis sp) hnd f2 (f3 hpm) (f4 ▸ f1) f5
    (Nat.ne_of_lt hpm).symm

/-- Witness for C8: a two-variant enum (one struct variant) built at the
crate root. -/
theorem enum_variants_define_both_slots_witness :
    (((build_reduced_graph_for_item emptyStore 10 initState 0
        (Item.mk 3 ("E") [] .Public 21 (.ItemEnum [⟨("A"), 22, false, 4⟩,
          ⟨("B"), 23, true, 5⟩]))).1.modules 0).children ("E") = some 0) ∧
    (get_module_if_available ((build_reduced_graph_for_item emptyStore 10 initState 0
        (Item.mk 3 ("E") [] .Public 21 (.ItemEnum [⟨("A"), 22, false, 4⟩,
          ⟨("B"), 23, true, 5⟩]))).1.bindings 0) = some 1) ∧
    (∀ v ∈ [(⟨("A"), 22, false, 4⟩ : Variant), ⟨("B"), 23, true, 5⟩], ∃ bid,
      (((build_reduced_graph_for_item emptyStore 10 initState 0
          (Item.mk 3 ("E") [] .Public 21 (.ItemEnum [⟨("A"), 22, false, 4⟩,
            ⟨("B"), 23, true, 5⟩]))).1.modules 1).children v.name = some bid) ∧
      (((build_reduced_graph_for_item emptyStore 10 initState 0
          (Item.mk 3 ("E") [] .Public 21 (.ItemEnum [⟨("A"), 22, false, 4⟩,
            ⟨("B"), 23, true, 5⟩]))).1.bindings bid).value_def =
        some ⟨DefModifiers.publicImportable,
          .DefVariant (local_def_id 3) (local_def_id v.data_id) v.data_is_struct,
          some v.span⟩) ∧
      (((build_reduced_graph_for_item emptyStore 10 initState 0
          (Item.mk 3 ("E") [] .Public 21 (.ItemEnum [⟨("A"), 22, false, 4⟩,
            ⟨("B"), 23, true, 5⟩]))).1.bindings bid).type_def =
        some ⟨DefModifiers.publicImportable, none,
          some (.DefVariant (local_def_id 3) (local_def_id v.data_id) v.data_is_struct),
          some v.span⟩)) :=
  enum_variants_define_both_slots emptyStore 10 initState 0 3 ("E") [] .Public 21
    [⟨("A"), 22, false, 4⟩, ⟨("B"), 23, true, 5⟩] (by decide) (by decide) (by decide)

/-! ## C9: trait items are not importable -/

/-- The binding cell installed for one local trait item (value slot for
consts and methods, type slot for associated types; modifiers `PUBLIC`
only). -/
def traitCell (item_id : NodeId) (ti : TraitItem) : NameBindings :=
  match ti.node with
  | .ConstTraitItem =>
    ⟨none, some ⟨DefModifiers.publicOnly, .DefAssociatedConst (local_def_id ti.id),
      some ti.span⟩⟩
  | .MethodTraitItem =>
    ⟨none, some ⟨DefModifiers.publicOnly, .DefMethod (local_def_id ti.id), some ti.span⟩⟩
  | .TypeTraitItem =>
    ⟨some ⟨DefModifiers.publicOnly, none,
      some (.DefAssociatedTy (local_def_id item_id) (local_def_id ti.id)), some ti.span⟩,
      none⟩

theorem add_child_trait_item_map (s : RState) (n : Name) (pM : Nat)
    (mode : DuplicateCheckingMode) (sp : Span) :
    (add_child s n pM mode sp).1.trait_item_map = s.trait_item_map := by
  simp only [add_child, check_for_conflicts_between_external_crates_and_items]
  (repeat' split) <;> rfl

theorem trait_item_step (s : RState) (ti : TraitItem) (M : Nat) (tdid : DefId)
    (item_id : NodeId) (hnone : (s.modules M).children ti.name = none) :
    (build_trait_item M tdid item_id s ti).nbindings = s.nbindings + 1 ∧
    (build_trait_item M tdid item_id s ti).nmodules = s.nmodules ∧
    (build_trait_item M tdid item_id s ti).modules =
      updFn s.modules M
        { s.modules M with
            children := updName (s.modules M).children ti.name (some s.nbindings) } ∧
    (build_trait_item M tdid item_id s ti).bindings =
      updFn s.bindings s.nbindings (traitCell item_id ti) ∧
    (build_trait_item M tdid item_id s ti).trait_item_map =
      ((ti.name, tdid), local_def_id ti.id) :: s.trait_item_map := by
  obtain ⟨ha2, hanb, hanm, hamod, habind⟩ :=
    add_child_fresh s ti.name M .ForbidDuplicateTypesAndValues ti.span hnone
  cases hn : ti.node
  all_goals
    simp only [build_trait_item, hn, define_value, define_type, modifyBindingAt,
      insertTraitItem]
    refine ⟨by simp [hanb], by simp [hanm], by simp [hamod], ?_,
      by simp [add_child_trait_item_map]⟩
    funext b
    by_cases hb : b = s.nbindings
    · simp [hb, ha2, habind, updFn_apply, NameBindings.new, traitCell, hn]
    · simp [hb, ha2, habind, updFn_apply, traitCell]

set_option maxHeartbeats 1000000 in
theorem trait_fold_facts (tdid : DefId) (item_id : NodeId) (M : Nat) :
    ∀ (ts : List TraitItem) (s : RState),
    (∀ ti ∈ ts, ((s.modules M).children ti.name) = none) →
    (ts.map TraitItem.name).Nodup →
    s.nbindings ≤ (ts.foldl (build_trait_item M tdid item_id) s).nbindings ∧
    (∀ b, b < s.nbindings →
      (ts.foldl (build_trait_item M tdid item_id) s).bindings b = s.bindings b) ∧
    (∀ j, j ≠ M →
      (ts.foldl (build_trait_item M tdid item_id) s).modules j = s.modules j) ∧
    (∀ n, n ∉ ts.map TraitItem.name →
      ((ts.foldl (build_trait_item M tdid item_id) s).modules M).children n =
        (s.modules M).children n) ∧
    (∀ n d, n ∉ ts.map TraitItem.name →
      alookup (ts.foldl (build_trait_item M tdid item_id) s).trait_item_map (n, d) =
        alookup s.trait_item_map (n, d)) ∧
    ((ts.foldl (build_trait_item M tdid item_id) s).modules M).kind =
      (s.modules M).kind ∧
    (∀ ti ∈ ts, ∃ bid, s.nbindings ≤ bid ∧
      ((ts.foldl (build_trait_item M tdid item_id) s).modules M).children ti.name =
        some bid ∧
      (ts.foldl (build_trait_item M tdid item_id) s).bindings bid =
        traitCell item_id ti ∧
      alookup (ts.foldl (build_trait_item M tdid item_id) s).trait_item_map
        (ti.name, tdid) = some (local_def_id ti.id)) := by
  intro ts
  induction ts with
  | nil =>
    intro s _ _
    exact ⟨le_refl _, fun _ _ => rfl, fun _ _ => rfl, fun _ _ => rfl, fun _ _ _ => rfl,
      rfl, fun ti hti => absurd hti (List.not_mem_nil ti)⟩
  | cons ti rest ih =>
    intro s hch hnd
    obtain ⟨st1, st2, st3, st4, st5⟩ :=
      trait_item_step s ti M tdid item_id (hch ti (List.mem_cons_self ti rest))
    have hmap : (List.map TraitItem.name (ti :: rest)) =
        ti.name :: rest.map TraitItem.name := rfl
    rw [hmap, List.nodup_cons] at hnd
    have hch2 : ∀ w ∈ rest, (((build_trait_item M tdid item_id s ti).modules M).children
        w.name) = none := by
      intro w hw
      rw [st3, updFn_apply, if_pos rfl]
      show updName (s.modules M).children ti.name (some s.nbindings) w.name = none
      rw [updName_apply, if_neg, hch w (List.mem_cons_of_mem ti hw)]
      intro hwv
      exact hnd.1 (hwv ▸ List.mem_map_of_mem TraitItem.name hw)
    obtain ⟨ihA, ihB, ihC, ihD, ihF, ihG, ihE⟩ :=
      ih (build_trait_item M tdid item_id s ti) hch2 hnd.2
    have hfold : (ti :: rest).foldl (build_trait_item M tdid item_id) s =
        rest.foldl (build_trait_item M tdid item_id)
          (build_trait_item M tdid item_id s ti) := rfl
    refine ⟨?_, ?_, ?_, ?_, ?_, ?_, ?_⟩
    · rw [hfold]
      refine le_trans ?_ ihA
      rw [st1]
      exact Nat.le_succ _
    · intro b hb
      rw [hfold, ihB b (by rw [st1]; exact lt_of_lt_of_le hb (Nat.le_succ _)), st4,
        updFn_apply, if_neg (Nat.ne_of_lt hb)]
    · intro j hj
      rw [hfold, ihC j hj, st3, updFn_apply, if_neg hj]
    · intro n hn
      rw [hmap] at hn
      have hn1 : n ≠ ti.name := fun h => hn (h ▸ List.mem_cons_self _ _)
      have hn2 : n ∉ rest.map TraitItem.name := fun h => hn (List.mem_cons_of_mem _ h)
      rw [hfold, ihD n hn2, st3, updFn_apply, if_pos rfl]
      show updName (s.modules M).children ti.name (some s.nbindings) n = _
      rw [updName_apply, if_neg hn1]
    · intro n d hn
      rw [hmap] at hn
      have hn1 : n ≠ ti.name := fun h => hn (h ▸ List.mem_cons_self _ _)
      have hn2 : n ∉ rest.map TraitItem.name := fun h => hn (List.mem_cons_of_mem _ h)
      rw [hfold, ihF n d hn2, st5]
      show (if (n, d) = (ti.name, tdid) then some (local_def_id ti.id)
        else alookup s.trait_item_map (n, d)) = _
      rw [if_neg]
      intro hpair
      exact hn1 (congrArg Prod.fst hpair)
    · rw [hfold, ihG, st3, updFn_apply, if_pos rfl]
    · intro w hw
      rw [hfold]
      rcases List.mem_cons.mp hw with hw1 | hw2
      · subst hw1
        refine ⟨s.nbindings, le_refl _, ?_, ?_, ?_⟩
        · rw [ihD w.name (fun h => hnd.1 h), st3, updFn_apply, if_pos rfl]
          show updName (s.modules M).children w.name (some s.nbindings) w.name = _
          rw [updName_apply, if_pos rfl]
        · rw [ihB s.nbindings (by rw [st1]; exact Nat.lt_succ_self _), st4,
            updFn_apply, if_pos rfl]
        · rw [ihF w.name tdid (fun h => hnd.1 h), st5]
          show (if (w.name, tdid) = (w.name, tdid) then some (local_def_id w.id)
            else alookup s.trait_item_map (w.name, tdid)) = _
          rw [if_pos rfl]
      · obtain ⟨bid, hb0, hb1, hb2, hb3⟩ := ihE w hw2
        refine ⟨bid, ?_, hb1, hb2, hb3⟩
        rw [st1] at hb0
        exact le_trans (Nat.le_succ _) hb0

/-- The state of the `ItemTrait` arm just before the trait-items fold. -/
def traitT (s : RState) (parentMid : Nat) (id : NodeId) (name : Name)
    (vis : Visibility) (sp : Span) : RState :=
  (define_module (add_child s name parentMid .ForbidDuplicateTypesAndModules sp).1
    (add_child s name parentMid .ForbidDuplicateTypesAndModules sp).2
    (.ModuleParentLink parentMid name) (some (local_def_id id)) .TraitModuleKind false
    vis.isPublicB sp).1

set_option maxHeartbeats 1000000 in
theorem traitT_facts (s : RState) (parentMid : Nat) (id : NodeId) (name : Name)
    (vis : Visibility) (sp : Span)
    (hfresh : (s.modules parentMid).children name = none) :
    ((define_module (add_child s name parentMid .ForbidDuplicateTypesAndModules sp).1
        (add_child s name parentMid .ForbidDuplicateTypesAndModules sp).2
        (.ModuleParentLink parentMid name) (some (local_def_id id)) .TraitModuleKind
        false vis.isPublicB sp).2 = s.nmodules) ∧
    ((add_child s name parentMid .ForbidDuplicateTypesAndModules sp).2 = s.nbindings) ∧
    (∀ n, ((traitT s parentMid id name vis sp).modules s.nmodules).children n = none) ∧
    (((traitT s parentMid id name vis sp).modules s.nmodules).kind =
      .TraitModuleKind) ∧
    (parentMid < s.nmodules →
      ((traitT s parentMid id name vis sp).modules parentMid).children name =
        some s.nbindings) ∧
    ((traitT s parentMid id name vis sp).nbindings = s.nbindings + 1) ∧
    ((traitT s parentMid id name vis sp).bindings s.nbindings =
      ⟨some ⟨DefModifiers.forItem vis.isPublicB, some s.nmodules, none, some sp⟩,
        none⟩) := by
  obtain ⟨ha2, hanb, hanm, hamod, habind⟩ :=
    add_child_fresh s name parentMid .ForbidDuplicateTypesAndModules sp hfresh
  refine ⟨by simp [define_module, allocModule, hanm], ha2, ?_, ?_, ?_, ?_, ?_⟩
  · intro n
    simp [traitT, define_module, allocModule, modifyBindingAt, updFn_apply, hanm,
      Module.new]
  · simp [traitT, define_module, allocModule, modifyBindingAt, updFn_apply, hanm,
      Module.new]
  · intro hpm
    simp [traitT, define_module, allocModule, modifyBindingAt, updFn_apply, hanm,
      hamod, Nat.ne_of_lt hpm, Ne.symm (Nat.ne_of_lt hpm), updName_apply]
  · simp [traitT, define_module, allocModule, modifyBindingAt, hanb]
  · simp [traitT, define_module, allocModule, modifyBindingAt, updFn_apply, habind,
      ha2, hanm, NameBindings.new]

theorem trait_item_eq (cs : CStore) (fuel : Nat) (s : RState) (parentMid : Nat)
    (id : NodeId) (name : Name) (attrs : List String) (vis : Visibility) (sp : Span)
    (titems : List TraitItem)
    (hfresh : (s.modules parentMid).children name = none) :
    (build_reduced_graph_for_item cs fuel s parentMid
        (Item.mk id name attrs vis sp (.ItemTrait titems))).1 =
      define_type (titems.foldl (build_trait_item s.nmodules (local_def_id id) id)
        (traitT s parentMid id name vis sp)) s.nbindings (.DefTrait (local_def_id id))
        sp (DefModifiers.forItem vis.isPublicB) := by
  obtain ⟨f1, f2, _⟩ := traitT_facts s parentMid id name vis sp hfresh
  simp only [build_reduced_graph_for_item, traitT]
  rw [f1, f2]

/-- The external defs that land in the value namespace through the shared
`define_value` arm of `handle_external_def` (a tuple-struct constructor
`DefFn(_, true)` is diverted to the constructor arm instead). -/
def ValueNsExternalDef : Def → Prop
  | .DefFn _ false => True
  | .DefStatic _ _ => True
  | .DefConst _ => True
  | .DefAssociatedConst _ => True
  | .DefMethod _ => True
  | _ => False

set_option maxHeartbeats 1000000 in
theorem external_value_def_mods (cs : CStore) (s : RState) (d : Def)
    (vis : Visibility) (bid : Nat) (name : Name) (np : Nat)
    (hd : ValueNsExternalDef d)
    (hk : (s.modules np).kind ≠ ModuleKind.NormalModuleKind) :
    ((handle_external_def cs s d vis bid name np).bindings bid).value_def =
      some ⟨⟨vis.isPublicB, false⟩, d, some DUMMY_SP⟩ := by
  cases d <;> try exact hd.elim
  case DefFn c b =>
    cases b
    · simp only [handle_external_def]
      (repeat' split) <;>
        simp_all [define_value, modifyBindingAt, updFn_apply, insertExternalExport,
          insertExport, DefModifiers.forItem]
    · exact hd.elim
  case DefStatic a b =>
    simp only [handle_external_def]
    (repeat' split) <;>
      simp_all [define_value, modifyBindingAt, updFn_apply, insertExternalExport,
        insertExport, DefModifiers.forItem]
  case DefConst a =>
    simp only [handle_external_def]
    (repeat' split) <;>
      simp_all [define_value, modifyBindingAt, updFn_apply, insertExternalExport,
        insertExport, DefModifiers.forItem]
  case DefAssociatedConst a =>
    simp only [handle_external_def]
    (repeat' split) <;>
      simp_all [define_value, modifyBindingAt, updFn_apply, insertExternalExport,
        insertExport, DefModifiers.forItem]
  case DefMethod a =>
    simp only [handle_external_def]
    (repeat' split) <;>
      simp_all [define_value, modifyBindingAt, updFn_apply, insertExternalExport,
        insertExport, DefModifiers.forItem]

theorem define_type_modules (s : RState) (bid : Nat) (d : Def) (sp : Span)
    (mods : DefModifiers) : (define_type s bid d sp mods).modules = s.modules := rfl

/-- C9: (1) lowering a local `trait` item with a fresh name binds the trait
cell in the parent, creates the companion Trait-kind module, and installs
every trait item there with modifiers `PUBLIC` only (`IMPORTABLE` cleared;
the installed cell is `traitCell`), recording `(name, trait_def_id)` in
`trait_item_map`; (2) an external value-namespace def whose new parent module
is not Normal-kind is bound with `IMPORTABLE` cleared. -/
theorem trait_items_not_importable :
    (∀ (cs : CStore) (fuel : Nat) (s : RState) (parentMid : Nat) (id : NodeId)
       (name : Name) (attrs : List String) (vis : Visibility) (sp : Span)
       (titems : List TraitItem),
       parentMid < s.nmodules →
       (s.modules parentMid).children name = none →
       (titems.map TraitItem.name).Nodup →
       (((build_reduced_graph_for_item cs fuel s parentMid
           (Item.mk id name attrs vis sp (.ItemTrait titems))).1.modules
           parentMid).children name = some s.nbindings) ∧
       (get_module_if_available ((build_reduced_graph_for_item cs fuel s parentMid
           (Item.mk id name attrs vis sp (.ItemTrait titems))).1.bindings
           s.nbindings) = some s.nmodules) ∧
       (((build_reduced_graph_for_item cs fuel s parentMid
           (Item.mk id name attrs vis sp (.ItemTrait titems))).1.modules
           s.nmodules).kind = ModuleKind.TraitModuleKind) ∧
       (∀ ti ∈ titems, ∃ bid,
         (((build_reduced_graph_for_item cs fuel s parentMid
             (Item.mk id name attrs vis sp (.ItemTrait titems))).1.modules
             s.nmodules).children ti.name = some bid) ∧
         ((build_reduced_graph_for_item cs fuel s parentMid
             (Item.mk id name attrs vis sp (.ItemTrait titems))).1.bindings bid =
           traitCell id ti) ∧
         (alookup (build_reduced_graph_for_item cs fuel s parentMid
             (Item.mk id name attrs vis sp (.ItemTrait titems))).1.trait_item_map
             (ti.name, local_def_id id) = some (local_def_id ti.id)))) ∧
    (∀ (cs : CStore) (s : RState) (d : Def) (vis : Visibility) (bid : Nat)
       (name : Name) (np : Nat), ValueNsExternalDef d →
       (s.modules np).kind ≠ ModuleKind.NormalModuleKind →
       ((handle_external_def cs s d vis bid name np).bindings bid).value_def =
         some ⟨⟨vis.isPublicB, false⟩, d, some DUMMY_SP⟩) := by
  constructor
  · intro cs fuel s parentMid id name attrs vis sp titems hpm hfresh hnd
    obtain ⟨f1, f2, f3, f4, f5, f6, f7⟩ := traitT_facts s parentMid id name vis sp hfresh
    obtain ⟨gA, gB, gC, gD, gF, gG, gE⟩ :=
      trait_fold_facts (local_def_id id) id s.nmodules titems
        (traitT s parentMid id name vis sp) (fun ti _ => f3 ti.name) hnd
    rw [trait_item_eq cs fuel s parentMid id name attrs vis sp titems hfresh]
    have hgb : (titems.foldl (build_trait_item s.nmodules (local_def_id id) id)
        (traitT s parentMid id name vis sp)).bindings s.nbindings =
        ⟨some ⟨DefModifiers.forItem vis.isPublicB, some s.nmodules, none, some sp⟩,
          none⟩ := by
      rw [gB s.nbindings (by rw [f6]; exact Nat.lt_succ_self _)]
      exact f7
    refine ⟨?_, ?_, ?_, ?_⟩
    · rw [define_type_modules, gC parentMid (Nat.ne_of_lt hpm)]
      exact f5 hpm
    · simp [define_type, modifyBindingAt, updFn_apply, get_module_if_available, hgb]
    · rw [define_type_modules, gG]
      exact f4
    · intro ti hti
      obtain ⟨bid, hb0, hb1, hb2, hb3⟩ := gE ti hti
      have hne : bid ≠ s.nbindings := by
        rw [f6] at hb0
        omega
      refine ⟨bid, ?_, ?_, hb3⟩
      · rw [define_type_modules]
        exact hb1
      · have hdb : (define_type (titems.foldl (build_trait_item s.nmodules
            (local_def_id id) id) (traitT s parentMid id name vis sp)) s.nbindings
            (.DefTrait (local_def_id id)) sp (DefModifiers.forItem vis.isPublicB)
            ).bindings bid =
            (titems.foldl (build_trait_item s.nmodules (local_def_id id) id)
              (traitT s parentMid id name vis sp)).bindings bid := by
          simp [define_type, modifyBindingAt, updFn_apply, hne]
        rw [hdb]
        exact hb2
  · intro cs s d vis bid name np hd hk
    exact external_value_def_mods cs s d vis bid name np hd hk

/-- Witness for C9: a trait with a method and an associated type at the crate
root, and an external method handled under a Trait-kind parent module. -/
theorem trait_items_not_importable_witness :
    ((((build_reduced_graph_for_item emptyStore 10 initState 0
        (Item.mk 5 ("Tr") [] .Public 41 (.ItemTrait [⟨6, ("m"), 42, .MethodTraitItem⟩,
          ⟨7, ("A"), 43, .TypeTraitItem⟩]))).1.modules 0).children ("Tr") = some 0) ∧
      (get_module_if_available ((build_reduced_graph_for_item emptyStore 10 initState 0
          (Item.mk 5 ("Tr") [] .Public 41 (.ItemTrait [⟨6, ("m"), 42, .MethodTraitItem⟩,
            ⟨7, ("A"), 43, .TypeTraitItem⟩]))).1.bindings 0) = some 1) ∧
      (((build_reduced_graph_for_item emptyStore 10 initState 0
          (Item.mk 5 ("Tr") [] .Public 41 (.ItemTrait [⟨6, ("m"), 42, .MethodTraitItem⟩,
            ⟨7, ("A"), 43, .TypeTraitItem⟩]))).1.modules 1).kind =
        ModuleKind.TraitModuleKind) ∧
      (∀ ti ∈ [(⟨6, ("m"), 42, .MethodTraitItem⟩ : TraitItem),
          ⟨7, ("A"), 43, .TypeTraitItem⟩], ∃ bid,
        (((build_reduced_graph_for_item emptyStore 10 initState 0
            (Item.mk 5 ("Tr") [] .Public 41 (.ItemTrait [⟨6, ("m"), 42,
              .MethodTraitItem⟩, ⟨7, ("A"), 43, .TypeTraitItem⟩]))).1.modules
            1).children ti.name = some bid) ∧
        ((build_reduced_graph_for_item emptyStore 10 initState 0
            (Item.mk 5 ("Tr") [] .Public 41 (.ItemTrait [⟨6, ("m"), 42,
              .MethodTraitItem⟩, ⟨7, ("A"), 43, .TypeTraitItem⟩]))).1.bindings bid =
          traitCell 5 ti) ∧
        (alookup (build_reduced_graph_for_item emptyStore 10 initState 0
            (Item.mk 5 ("Tr") [] .Public 41 (.ItemTrait [⟨6, ("m"), 42,
              .MethodTraitItem⟩, ⟨7, ("A"), 43, .TypeTraitItem⟩]))).1.trait_item_map
            (ti.name, local_def_id 5) = some (local_def_id ti.id)))) ∧
    (((handle_external_def emptyStore
        (modifyModuleAt initState 0 (fun m => { m with kind := .TraitModuleKind }))
        (.DefMethod ⟨7, 9⟩) .Public 0 ("f") 0).bindings 0).value_def =
      some ⟨⟨true, false⟩, .DefMethod ⟨7, 9⟩, some DUMMY_SP⟩) :=
  ⟨trait_items_not_importable.1 emptyStore 10 initState 0 5 ("Tr") [] .Public 41
      [⟨6, ("m"), 42, .MethodTraitItem⟩, ⟨7, ("A"), 43, .TypeTraitItem⟩]
      (by decide) (by decide) (by decide),
    trait_items_not_importable.2 emptyStore
      (modifyModuleAt initState 0 (fun m => { m with kind := .TraitModuleKind }))
      (.DefMethod ⟨7, 9⟩) .Public 0 ("f") 0 trivial (by decide)⟩
